import Mathlib

/-!
Shallow embedding of the production-readiness assessment orchestrator
(src/skills/production-readiness/production-readiness/scripts/production_readiness.py)
and proofs about its scoring, findings aggregation, roadmap generation and
focus filtering.

Modelling conventions:
* Python floats are embedded as rationals; all constants appearing in the
  source (weights, penalties, effort hours) are exact in this embedding.
* A repository snapshot is the list of files the os.walk traversals yield,
  in traversal order.  Each file carries its relative path, decoded content,
  a readability flag (read_text succeeding), and oracle fields recording
  which entries of the fixed regex tables re.search matches in the content
  (the regex engine itself is not modelled; all path filtering, extension
  filtering and counting logic downstream of the regex calls is embedded
  exactly).  Substring checks the source performs with the in operator are
  embedded exactly via strContains.
* python dicts keyed by Dimension are embedded as functions
  Dimension -> Option _ ; insertion order of dimension_scores coincides
  with the declaration order of the Dimension enum because the analyzer
  table lists dimensions in enum order.
* Narrative-only Finding fields (description, impact, root_cause,
  validation, references) and the metadata / technology_stack / statistics
  report fields are informational strings never read by any aggregation
  logic; they are omitted from the embedding.  Apostrophes appearing inside
  source string literals are dropped.
-/

namespace PRA

/-- Severity enum (production_readiness.py lines 21-27). -/
inductive Severity where
  | critical
  | high
  | medium
  | low
  | info
  deriving DecidableEq

/-- Dimension enum (lines 29-44), in declaration order. -/
inductive Dimension where
  | security
  | architecture
  | reliability
  | performance
  | observability
  | testing
  | devops
  | data_management
  | api_contracts
  | documentation
  | compliance
  | cost_optimization
  | dependencies
  | configuration
  | team_readiness
  deriving DecidableEq

/-- The 15 dimensions in enum declaration order (equal to the key order of
the DIMENSION_WEIGHTS dict literal, lines 48-64). -/
def allDimensions : List Dimension :=
  [.security, .architecture, .reliability, .performance, .observability,
   .testing, .devops, .data_management, .api_contracts, .documentation,
   .compliance, .cost_optimization, .dependencies, .configuration,
   .team_readiness]

/-- The string value of each Dimension enum member (lines 30-44). -/
def dimValue : Dimension → String
  | .security => "security"
  | .architecture => "architecture"
  | .reliability => "reliability"
  | .performance => "performance"
  | .observability => "observability"
  | .testing => "testing"
  | .devops => "devops"
  | .data_management => "data_management"
  | .api_contracts => "api_contracts"
  | .documentation => "documentation"
  | .compliance => "compliance"
  | .cost_optimization => "cost_optimization"
  | .dependencies => "dependencies"
  | .configuration => "configuration"
  | .team_readiness => "team_readiness"

/-- DIMENSION_WEIGHTS (lines 48-64). -/
def DIMENSION_WEIGHTS : Dimension → ℚ
  | .security => 3
  | .architecture => 3
  | .reliability => 3
  | .performance => 2
  | .observability => 2
  | .testing => 2
  | .devops => 2
  | .data_management => 2
  | .api_contracts => 3/2
  | .documentation => 3/2
  | .compliance => 3/2
  | .cost_optimization => 3/2
  | .dependencies => 3/2
  | .configuration => 3/2
  | .team_readiness => 3/2

/-- The weight table as the ordered item list of the DIMENSION_WEIGHTS dict
(iteration order of a python dict literal is declaration order). -/
def weightItems : List (Dimension × ℚ) :=
  allDimensions.map (fun d => (d, DIMENSION_WEIGHTS d))

/-- Finding dataclass (lines 67-87); narrative-only fields omitted. -/
structure Finding where
  title : String
  severity : Severity
  dimension : Dimension
  location : String
  remediation : String
  effortHours : ℚ
  deriving DecidableEq

/-- DimensionScore dataclass (lines 90-97); the derived summary string is
omitted. -/
structure DimensionScore where
  dimension : Dimension
  score : ℚ
  findings : List Finding
  recommendations : List String
  deriving DecidableEq

/-- One file of the cloned snapshot, as seen by the os.walk traversals.
secretHits / vulnHits / cryptoHits record which indices of the respective
fixed regex tables re.search matches in this file content; lockDeps is the
parsed dependencies object when this file is a parseable package-lock.json
(empty otherwise, matching the caught-and-ignored parse failure). -/
structure SFile where
  path : String
  content : String
  readable : Bool
  secretHits : List Nat
  vulnHits : List Nat
  cryptoHits : List Nat
  lockDeps : List (String × String)
  deriving DecidableEq

/-- The read-only repository snapshot: the files in walk order. -/
structure Snapshot where
  files : List SFile
  deriving DecidableEq

/- ---------------- string helpers (python str operations) ---------------- -/

/-- needle in hay on character lists (python substring containment). -/
def containsSub : List Char → List Char → Bool
  | [], needle => needle.isEmpty
  | c :: t, needle => List.isPrefixOf needle (c :: t) || containsSub t needle

/-- python needle in hay. -/
def strContains (hay needle : String) : Bool :=
  containsSub hay.toList needle.toList

/-- python str.lower() (ASCII, as used on the paths and contents here). -/
def lowerStr (s : String) : String :=
  String.mk (s.toList.map Char.toLower)

/-- Split a character list at every slash (path components). -/
def splitSlash : List Char → List (List Char)
  | [] => [[]]
  | c :: t =>
    match splitSlash t with
    | [] => [[]]
    | r :: rs => if c = '/' then [] :: r :: rs else (c :: r) :: rs

/-- Components of a relative path. -/
def pathParts (p : String) : List String :=
  (splitSlash p.toList).map String.mk

/-- The directory components of a file path (everything but the basename). -/
def dirParts (p : String) : List String :=
  (pathParts p).dropLast

/-- The basename of a file path. -/
def baseName (p : String) : String :=
  (pathParts p).getLastD ""

/-- python s.endswith(suffix). -/
def strEndsWith (s suffix : String) : Bool :=
  List.isPrefixOf suffix.toList.reverse s.toList.reverse

/-- python name.endswith(tuple-of-extensions). -/
def hasExt (name : String) (exts : List String) : Bool :=
  exts.any (fun e => strEndsWith name e)

/-- python s.startswith(pre). -/
def strStartsWith (s pre : String) : Bool :=
  List.isPrefixOf pre.toList s.toList

/-- (project_path / p).exists(): p names a file of the snapshot or a
directory containing one. -/
def pathExists (snap : Snapshot) (p : String) : Bool :=
  snap.files.any (fun f => f.path = p || strStartsWith f.path (p ++ "/"))

/-- name.lower().replace(" ", "_") applied to an analyzer display name
(line 153). -/
def pyName (s : String) : String :=
  String.mk ((lowerStr s).toList.map (fun c => if c = ' ' then '_' else c))

/- ---------------- security analyzer scans (lines 321-615) ---------------- -/

/-- Directory filter of the secret / vulnerable-pattern walks (lines 417-419,
498-500): skip hidden, node_modules, vendor, __pycache__ directories. -/
def walkOkSecrets (p : String) : Bool :=
  (dirParts p).all (fun d =>
    !(strStartsWith d ".") && d ≠ "node_modules" && d ≠ "vendor" && d ≠ "__pycache__")

/-- Directory filter of the authentication / cryptography walks (lines 555,
592): skip hidden directories only. -/
def walkOkHidden (p : String) : Bool :=
  (dirParts p).all (fun d => !(strStartsWith d "."))

/-- Directory filter of the reliability try/except walk (line 664): skip
hidden directories and node_modules. -/
def walkOkNoNodeModules (p : String) : Bool :=
  (dirParts p).all (fun d => !(strStartsWith d ".") && d ≠ "node_modules")

/-- Test/example path exclusion of the secret scan (line 430). -/
def pathExcluded (p : String) : Bool :=
  strContains (lowerStr p) "test" || strContains (lowerStr p) "example"

/-- The secret regex table (lines 408-415): index and secret type name, in
table order (the regexes themselves live in the oracle SFile.secretHits). -/
def secretTypesIdx : List (Nat × String) :=
  [(0, "API Key"), (1, "Secret"), (2, "Password"), (3, "Token"),
   (4, "AWS Access Key"), (5, "Private Key Reference")]

def secretFileExts : List String :=
  [".py", ".js", ".ts", ".java", ".go", ".env", ".yml", ".yaml", ".json", ".toml"]

/-- One entry of the _scan_for_secrets result list. -/
structure SecretHit where
  secretType : String
  loc : String
  deriving DecidableEq

/-- _scan_for_secrets (lines 403-438). -/
def scanForSecrets (snap : Snapshot) : List SecretHit :=
  snap.files.flatMap (fun f =>
    if walkOkSecrets f.path && hasExt (baseName f.path) secretFileExts && f.readable then
      secretTypesIdx.filterMap (fun pr =>
        if f.secretHits.contains pr.1 && !pathExcluded f.path then
          some ⟨pr.2, f.path⟩
        else none)
    else [])

/-- One entry of the vulnerable-pattern table (lines 445-496): the fields
the downstream Finding construction reads. -/
structure VulnPat where
  title : String
  sev : String
  remediation : String
  deriving DecidableEq

/-- The vulnerable-pattern table, indexed in table order. -/
def vulnPatternsIdx : List (Nat × VulnPat) :=
  [(0, ⟨"Dangerous eval/exec usage", "high",
        "Avoid eval/exec, use safe alternatives like ast.literal_eval"⟩),
   (1, ⟨"Shell injection vulnerability", "high",
        "Use subprocess with shell=False and argument lists"⟩),
   (2, ⟨"Potential XSS via innerHTML", "medium",
        "Use textContent or sanitize HTML before assignment"⟩),
   (3, ⟨"Potential SQL injection", "critical",
        "Use parameterized queries or ORM"⟩),
   (4, ⟨"Debug mode enabled", "medium",
        "Ensure debug mode is disabled in production"⟩)]

def vulnFileExts : List String :=
  [".py", ".js", ".ts", ".jsx", ".tsx", ".java", ".go"]

/-- _scan_vulnerable_patterns (lines 440-517): matched pattern plus the
relative path it matched at. -/
def scanVulnerablePatterns (snap : Snapshot) : List (VulnPat × String) :=
  snap.files.flatMap (fun f =>
    if walkOkSecrets f.path && hasExt (baseName f.path) vulnFileExts && f.readable then
      vulnPatternsIdx.filterMap (fun pr =>
        if f.vulnHits.contains pr.1 then some (pr.2, f.path) else none)
    else [])

/-- Severity(value) on the strings occurring in the vulnerable-pattern
table.  The python constructor raises ValueError on any other string; the
info default below is never reached from the fixed table. -/
def severityOfString (s : String) : Severity :=
  if s = "critical" then .critical
  else if s = "high" then .high
  else if s = "medium" then .medium
  else if s = "low" then .low
  else .info

/-- The known-vulnerable package names of _scan_dependency_vulnerabilities
(lines 524-529). -/
def knownVulnPkgs : List String := ["lodash", "axios", "minimist", "express"]

/-- _scan_dependency_vulnerabilities (lines 519-547): the flagged
(package, version) pairs from a root package-lock.json. -/
def scanDependencyVulnerabilities (snap : Snapshot) : List (String × String) :=
  match snap.files.find? (fun f => f.path = "package-lock.json") with
  | none => []
  | some f => f.lockDeps.filter (fun pr => knownVulnPkgs.contains pr.1)

def authFileExts : List String := [".py", ".js", ".ts"]

/-- _analyze_authentication (lines 549-577). -/
def analyzeAuthentication (snap : Snapshot) : List Finding :=
  snap.files.filterMap (fun f =>
    if walkOkHidden f.path && hasExt (baseName f.path) authFileExts && f.readable
        && strContains (lowerStr f.content) "jwt"
        && !(strContains (lowerStr f.content) "expires") then
      some { title := "JWT without expiration", severity := .high,
             dimension := .security, location := f.path,
             remediation := "Add exp claim to all JWTs", effortHours := 2 }
    else none)

/-- The weak-crypto regex table (lines 584-589): index, algorithm name and
suggested replacement, in table order. -/
def weakCryptoIdx : List (Nat × String × String) :=
  [(0, "MD5", "SHA-256 or SHA-3"), (1, "SHA-1", "SHA-256 or SHA-3"),
   (2, "DES", "AES-256"), (3, "RC4", "AES-GCM")]

def cryptoFileExts : List String := [".py", ".js", ".ts", ".java", ".go"]

/-- _analyze_cryptography (lines 579-615). -/
def analyzeCryptography (snap : Snapshot) : List Finding :=
  snap.files.flatMap (fun f =>
    if walkOkHidden f.path && hasExt (baseName f.path) cryptoFileExts && f.readable then
      weakCryptoIdx.filterMap (fun pr =>
        if f.cryptoHits.contains pr.1 then
          some { title := "Weak cryptographic algorithm: " ++ pr.2.1,
                 severity := .high, dimension := .security, location := f.path,
                 remediation := "Replace " ++ pr.2.1 ++ " with " ++ pr.2.2,
                 effortHours := 4 }
        else none)
    else [])

/- ---------------- analyzer outputs ---------------- -/

/-- What one analyzer method contributes: the findings it extends
self.findings with, and the DimensionScore it stores. -/
structure AnalyzerOut where
  newFindings : List Finding
  dimScore : DimensionScore
  deriving DecidableEq

/-- _generate_dimension_recommendations (lines 1278-1280): remediation of
the first five findings. -/
def mkRecommendations (findings : List Finding) : List String :=
  (findings.take 5).map (·.remediation)

/-- python max(0, score): the clamp applied at every DimensionScore
construction site. -/
def clamp0 (q : ℚ) : Rat :=
  if q < 0 then 0 else q

/-- Package an analyzer result: the stored score is max(0, raw). -/
def mkOut (d : Dimension) (raw : ℚ) (findings : List Finding) : AnalyzerOut :=
  { newFindings := findings,
    dimScore := { dimension := d, score := clamp0 raw, findings := findings,
                  recommendations := mkRecommendations findings } }

/-- Per-severity penalty of the vulnerable-pattern check (line 360). -/
def vulnSeverityPenalty (s : String) : ℚ :=
  if s = "critical" then 20
  else if s = "high" then 10
  else if s = "medium" then 5
  else if s = "low" then 2
  else 5

/-- _analyze_security (lines 321-401). -/
def analyzeSecurity (snap : Snapshot) : AnalyzerOut :=
  let secrets := scanForSecrets snap
  let secretFindings := secrets.map (fun s =>
    { title := "Hardcoded " ++ s.secretType ++ " detected", severity := Severity.critical,
      dimension := Dimension.security, location := s.loc,
      remediation := "Remove secret, rotate credentials, use secret management",
      effortHours := 2 })
  let vulns := scanVulnerablePatterns snap
  let vulnFindings := vulns.map (fun pr =>
    { title := pr.1.title, severity := severityOfString pr.1.sev,
      dimension := Dimension.security, location := pr.2,
      remediation := pr.1.remediation, effortHours := 4 })
  let deps := scanDependencyVulnerabilities snap
  let depFindings := deps.map (fun d =>
    { title := "Vulnerable dependency: " ++ d.1 ++ "@" ++ d.2,
      severity := Severity.high, dimension := Dimension.security,
      location := "package-lock.json",
      remediation := "Upgrade to version latest", effortHours := 1 })
  let authFindings := analyzeAuthentication snap
  let cryptoFindings := analyzeCryptography snap
  let findings := secretFindings ++ vulnFindings ++ depFindings ++ authFindings ++ cryptoFindings
  let raw : ℚ := 100 - 15 * secrets.length
      - (vulns.map (fun pr => vulnSeverityPenalty pr.1.sev)).sum
      - 8 * deps.length - 10 * authFindings.length - 10 * cryptoFindings.length
  mkOut .security raw findings

/- ---------------- the other fourteen analyzers (lines 617-1250) -------- -/

/-- _analyze_architecture (lines 617-652). -/
def analyzeArchitecture (snap : Snapshot) : AnalyzerOut :=
  let hasSrc := pathExists snap "src"
  let findings : List Finding := if hasSrc then [] else
    [{ title := "No src directory structure", severity := .low,
       dimension := .architecture, location := "project root",
       remediation := "Consider organizing code in src/ directory",
       effortHours := 8 }]
  mkOut .architecture (if hasSrc then 100 else 100 - 5) findings

def relExts : List String := [".py", ".js", ".ts", ".tsx", ".jsx"]

/-- _analyze_reliability (lines 654-728). -/
def analyzeReliability (snap : Snapshot) : AnalyzerOut :=
  let hasTryCatch := snap.files.any (fun f =>
    walkOkNoNodeModules f.path && hasExt (baseName f.path) relExts && f.readable &&
    (strContains f.content "try" || strContains f.content "catch" ||
     strContains f.content "except"))
  let hasHealth := snap.files.any (fun f => f.readable &&
    strContains (lowerStr f.content) "health" &&
    (strContains (lowerStr f.content) "endpoint" ||
     strContains (lowerStr f.content) "route"))
  let f1 : List Finding := if hasTryCatch then [] else
    [{ title := "Missing error handling", severity := .high,
       dimension := .reliability, location := "entire codebase",
       remediation := "Add error handling to critical code paths",
       effortHours := 16 }]
  let f2 : List Finding := if hasHealth then [] else
    [{ title := "No health check endpoint", severity := .medium,
       dimension := .reliability, location := "API routes",
       remediation := "Add /health endpoint returning service status",
       effortHours := 2 }]
  mkOut .reliability
    (100 - (if hasTryCatch then 0 else 20) - (if hasHealth then 0 else 10))
    (f1 ++ f2)

/-- _analyze_performance (lines 730-774). -/
def analyzePerformance (snap : Snapshot) : AnalyzerOut :=
  let hasCaching := snap.files.any (fun f => f.readable &&
    (strContains (lowerStr f.content) "redis" ||
     strContains (lowerStr f.content) "cache" ||
     strContains (lowerStr f.content) "memcached"))
  let findings : List Finding := if hasCaching then [] else
    [{ title := "No caching layer detected", severity := .medium,
       dimension := .performance, location := "entire codebase",
       remediation := "Implement caching for frequently accessed data",
       effortHours := 16 }]
  mkOut .performance (100 - (if hasCaching then 0 else 15)) findings

/-- _analyze_observability (lines 776-838). -/
def analyzeObservability (snap : Snapshot) : AnalyzerOut :=
  let hasLogging := snap.files.any (fun f => walkOkHidden f.path && f.readable &&
    (strContains (lowerStr f.content) "logger" ||
     strContains (lowerStr f.content) "logging" ||
     strContains (lowerStr f.content) "winston"))
  let hasMetrics := snap.files.any (fun f => walkOkHidden f.path && f.readable &&
    (strContains (lowerStr f.content) "prometheus" ||
     strContains (lowerStr f.content) "datadog" ||
     strContains (lowerStr f.content) "statsd"))
  let f1 : List Finding := if hasLogging then [] else
    [{ title := "No structured logging detected", severity := .high,
       dimension := .observability, location := "entire codebase",
       remediation := "Implement structured logging with correlation IDs",
       effortHours := 8 }]
  let f2 : List Finding := if hasMetrics then [] else
    [{ title := "No metrics instrumentation", severity := .medium,
       dimension := .observability, location := "entire codebase",
       remediation := "Add Prometheus/DataDog/custom metrics",
       effortHours := 16 }]
  mkOut .observability
    (100 - (if hasLogging then 0 else 25) - (if hasMetrics then 0 else 15))
    (f1 ++ f2)

/-- _analyze_testing (lines 840-900). -/
def analyzeTesting (snap : Snapshot) : AnalyzerOut :=
  let hasTests := ["test", "tests", "__tests__", "spec", "specs"].any (pathExists snap)
  let hasCiTests := snap.files.any (fun f =>
    dirParts f.path = [".github", "workflows"] && strEndsWith f.path ".yml" &&
    f.readable && strContains (lowerStr f.content) "test")
  let f1 : List Finding := if hasTests then [] else
    [{ title := "No test directory found", severity := .critical,
       dimension := .testing, location := "project root",
       remediation := "Set up testing framework and write tests",
       effortHours := 40 }]
  let f2 : List Finding := if hasCiTests then [] else
    [{ title := "No automated tests in CI/CD", severity := .high,
       dimension := .testing, location := ".github/workflows",
       remediation := "Add test step to CI/CD pipeline", effortHours := 4 }]
  mkOut .testing
    (100 - (if hasTests then 0 else 40) - (if hasCiTests then 0 else 20))
    (f1 ++ f2)

/-- _analyze_devops (lines 902-953). -/
def analyzeDevops (snap : Snapshot) : AnalyzerOut :=
  let hasCicd := pathExists snap ".github/workflows" ||
    pathExists snap ".gitlab-ci.yml" || pathExists snap "Jenkinsfile"
  let hasDocker := pathExists snap "Dockerfile"
  let f1 : List Finding := if hasCicd then [] else
    [{ title := "No CI/CD pipeline configured", severity := .high,
       dimension := .devops, location := "project root",
       remediation := "Set up GitHub Actions/GitLab CI/Jenkins",
       effortHours := 16 }]
  let f2 : List Finding := if hasDocker then [] else
    [{ title := "No Dockerfile", severity := .medium,
       dimension := .devops, location := "project root",
       remediation := "Create Dockerfile for consistent builds",
       effortHours := 4 }]
  mkOut .devops
    (100 - (if hasCicd then 0 else 25) - (if hasDocker then 0 else 10))
    (f1 ++ f2)

/-- _analyze_data (lines 955-1001). -/
def analyzeData (snap : Snapshot) : AnalyzerOut :=
  let hasMigrations := pathExists snap "migrations" ||
    pathExists snap "db/migrations" || pathExists snap "alembic"
  let hasDb := snap.files.any (fun f => f.readable &&
    (strContains (lowerStr f.content) "database" ||
     strContains (lowerStr f.content) "postgres" ||
     strContains (lowerStr f.content) "mysql" ||
     strContains (lowerStr f.content) "mongo"))
  let flagged := !hasMigrations && hasDb
  let findings : List Finding := if flagged then
    [{ title := "No database migrations", severity := .high,
       dimension := .data_management, location := "project root",
       remediation := "Set up migration framework (Alembic, Flyway, etc.)",
       effortHours := 16 }]
    else []
  mkOut .data_management (100 - (if flagged then 20 else 0)) findings

/-- _analyze_api (lines 1003-1036). -/
def analyzeApi (snap : Snapshot) : AnalyzerOut :=
  let hasOpenapi := ["openapi.yaml", "openapi.yml", "swagger.yaml",
    "swagger.yml", "openapi.json"].any (pathExists snap)
  let findings : List Finding := if hasOpenapi then [] else
    [{ title := "No OpenAPI/Swagger specification", severity := .medium,
       dimension := .api_contracts, location := "project root",
       remediation := "Generate or write OpenAPI specification",
       effortHours := 8 }]
  mkOut .api_contracts (100 - (if hasOpenapi then 0 else 15)) findings

/-- _analyze_documentation (lines 1038-1091).  The inner quality check reads
README.md directly (no error handling in the source); a README.md entry of
the snapshot is consulted for its character count. -/
def analyzeDocumentation (snap : Snapshot) : AnalyzerOut :=
  let hasReadme := pathExists snap "README.md" || pathExists snap "README.rst"
  let f1 : List Finding := if hasReadme then [] else
    [{ title := "No README file", severity := .high,
       dimension := .documentation, location := "project root",
       remediation := "Create comprehensive README with setup instructions",
       effortHours := 4 }]
  let brief :=
    if hasReadme then
      match snap.files.find? (fun f => f.path = "README.md") with
      | some f => f.content.length < 500
      | none => false
    else false
  let f2 : List Finding := if brief then
    [{ title := "README is too brief", severity := .low,
       dimension := .documentation, location := "README.md",
       remediation := "Expand README with installation, usage, architecture",
       effortHours := 2 }]
    else []
  mkOut .documentation
    (100 - (if hasReadme then 0 else 30) - (if brief then 10 else 0))
    (f1 ++ f2)

/-- _analyze_compliance (lines 1093-1130). -/
def analyzeCompliance (snap : Snapshot) : AnalyzerOut :=
  let hasLicense := pathExists snap "LICENSE" || pathExists snap "LICENSE.md"
  let findings : List Finding := if hasLicense then [] else
    [{ title := "No LICENSE file", severity := .medium,
       dimension := .compliance, location := "project root",
       remediation := "Add appropriate LICENSE file", effortHours := 1 }]
  mkOut .compliance (100 - (if hasLicense then 0 else 15)) findings

/-- _analyze_cost (lines 1132-1146): a constant placeholder that stores a
fixed DimensionScore and, unlike every other analyzer, never extends
self.findings. -/
def analyzeCost (_snap : Snapshot) : AnalyzerOut :=
  { newFindings := [],
    dimScore := { dimension := .cost_optimization, score := 100, findings := [],
                  recommendations := ["Review cloud resource sizing",
                                      "Implement auto-scaling"] } }

/-- _analyze_dependencies (lines 1148-1184). -/
def analyzeDependencies (snap : Snapshot) : AnalyzerOut :=
  let hasLock := ["package-lock.json", "yarn.lock", "Pipfile.lock",
    "poetry.lock", "Cargo.lock"].any (pathExists snap)
  let findings : List Finding := if hasLock then [] else
    [{ title := "No dependency lock file", severity := .medium,
       dimension := .dependencies, location := "project root",
       remediation := "Generate and commit lock file", effortHours := 1 }]
  mkOut .dependencies (100 - (if hasLock then 0 else 15)) findings

/-- _analyze_configuration (lines 1186-1216). -/
def analyzeConfiguration (snap : Snapshot) : AnalyzerOut :=
  let flagged := pathExists snap ".env" && !(pathExists snap ".env.example")
  let findings : List Finding := if flagged then
    [{ title := "Missing .env.example", severity := .low,
       dimension := .configuration, location := "project root",
       remediation := "Create .env.example with all required variables",
       effortHours := 1/2 }]
    else []
  mkOut .configuration (100 - (if flagged then 10 else 0)) findings

/-- _analyze_team_readiness (lines 1218-1250). -/
def analyzeTeamReadiness (snap : Snapshot) : AnalyzerOut :=
  let hasContributing := pathExists snap "CONTRIBUTING.md"
  let findings : List Finding := if hasContributing then [] else
    [{ title := "No CONTRIBUTING guide", severity := .low,
       dimension := .team_readiness, location := "project root",
       remediation := "Add CONTRIBUTING.md with guidelines", effortHours := 2 }]
  mkOut .team_readiness (100 - (if hasContributing then 0 else 10)) findings

/- ---------------- orchestrator (lines 100-199, 1252-1265) ---------------- -/

/-- The analyzers list of run_assessment (lines 134-150), in source order:
display name, dimension, analyzer. -/
def analyzerTable : List (String × Dimension × (Snapshot → AnalyzerOut)) :=
  [("Security", .security, analyzeSecurity),
   ("Architecture", .architecture, analyzeArchitecture),
   ("Reliability", .reliability, analyzeReliability),
   ("Performance", .performance, analyzePerformance),
   ("Observability", .observability, analyzeObservability),
   ("Testing", .testing, analyzeTesting),
   ("DevOps", .devops, analyzeDevops),
   ("Data Management", .data_management, analyzeData),
   ("API Contracts", .api_contracts, analyzeApi),
   ("Documentation", .documentation, analyzeDocumentation),
   ("Compliance", .compliance, analyzeCompliance),
   ("Cost Optimization", .cost_optimization, analyzeCost),
   ("Dependencies", .dependencies, analyzeDependencies),
   ("Configuration", .configuration, analyzeConfiguration),
   ("Team Readiness", .team_readiness, analyzeTeamReadiness)]

/-- The orchestrator accumulator: self.findings and self.dimension_scores. -/
structure AssessState where
  findings : List Finding
  dimensionScores : Dimension → Option DimensionScore

def initState : AssessState := ⟨[], fun _ => none⟩

/-- One analyzer call: self.findings.extend plus the dict store
self.dimension_scores[dim] = DimensionScore(...). -/
def insertDS (st : AssessState) (d : Dimension) (out : AnalyzerOut) : AssessState :=
  { findings := st.findings ++ out.newFindings,
    dimensionScores := fun d' => if d' = d then some out.dimScore else st.dimensionScores d' }

/-- _should_analyze (lines 197-199). -/
def shouldAnalyze (focus : List String) (dimensionName : String) : Bool :=
  focus.contains dimensionName || focus.contains "all"

/-- self.focus = focus or [d.value for d in Dimension] (line 106): an
omitted (None) focus is represented as the empty list, which python also
treats as falsy. -/
def effectiveFocus (focus : List String) : List String :=
  if focus.isEmpty then allDimensions.map dimValue else focus

/-- One iteration of the analyzer loop (lines 152-155): run the analyzer
when enabled by focus, otherwise leave the state untouched. -/
def runStep (snap : Snapshot) (focus : List String) (st : AssessState)
    (e : String × Dimension × (Snapshot → AnalyzerOut)) : AssessState :=
  if shouldAnalyze focus (pyName e.1) then insertDS st e.2.1 (e.2.2 snap) else st

/-- The analyzer loop of run_assessment (lines 152-155). -/
def runAnalyzers (snap : Snapshot) (focus : List String) : AssessState :=
  analyzerTable.foldl (runStep snap focus) initState

/-- One iteration of the _calculate_overall_score loop (lines 1257-1260):
accumulate (weighted_sum, total_weight) when the dimension is present in
self.dimension_scores. -/
def overallStep (ds : Dimension → Option DimensionScore) (a : ℚ × ℚ)
    (pr : Dimension × ℚ) : ℚ × ℚ :=
  match ds pr.1 with
  | some sc => (a.1 + sc.score * pr.2, a.2 + pr.2)
  | none => a

/-- _calculate_overall_score (lines 1252-1265): iterate the weight-table
items, accumulating weighted_sum and total_weight over the dimensions
present in self.dimension_scores. -/
def calculateOverallScore (ds : Dimension → Option DimensionScore) : ℚ :=
  let acc := weightItems.foldl (overallStep ds) (0, 0)
  if acc.2 = 0 then 0 else acc.1 / acc.2

/- ---------------- report and roadmap (lines 1282-1394) ---------------- -/

/-- python round(x, 1).  On every value this program feeds it, x*10 is an
integer or the rounding mode is immaterial to the stated claims, so the
half-up round of Mathlib stands in for the float round. -/
def roundTo1 (q : ℚ) : ℚ := (round (q * 10) : ℤ) / 10

/-- The readiness-level bands (lines 1287-1296), computed on the unrounded
overall score. -/
def readinessLevelOf (s : ℚ) : String :=
  if 90 ≤ s then "Production Ready"
  else if 75 ≤ s then "Nearly Ready"
  else if 50 ≤ s then "Significant Work Needed"
  else if 25 ≤ s then "Not Ready"
  else "Substantial Rebuild Required"

/-- _generate_executive_recommendation (lines 1348-1357). -/
def generateExecutiveRecommendation (score : ℚ) (criticalCount : Nat) : String :=
  if 90 ≤ score then
    "System is production-ready. Minor improvements recommended for optimization."
  else if 75 ≤ score then
    "Address " ++ toString criticalCount ++
      " critical issues before production deployment. Target timeline: 1-2 weeks."
  else if 50 ≤ score then
    "Significant work required. Focus on security and reliability first. Target timeline: 1 month."
  else
    "Major remediation required. Consider phased approach with security as priority."

/-- One phase of the remediation roadmap (lines 1367-1392). -/
structure RoadmapPhase where
  phase : Nat
  name : String
  duration : String
  items : List String
  deriving DecidableEq

/-- The critical_security list of _generate_roadmap (lines 1364-1365). -/
def critSecOf (findings : List Finding) : List Finding :=
  findings.filter
    (fun f => decide (f.severity = Severity.critical ∧ f.dimension = Dimension.security))

/-- The high_priority list of _generate_roadmap (line 1375). -/
def highPriorityOf (findings : List Finding) : List Finding :=
  findings.filter (fun f => decide (f.severity = Severity.high))

/-- The medium_priority list of _generate_roadmap (line 1385). -/
def mediumPriorityOf (findings : List Finding) : List Finding :=
  findings.filter (fun f => decide (f.severity = Severity.medium))

/-- Phase 1 of the roadmap (lines 1363-1372). -/
def phase1Of (findings : List Finding) : List RoadmapPhase :=
  if (critSecOf findings).isEmpty then [] else
    [{ phase := 1, name := "Critical Security Remediation", duration := "Week 1",
       items := ((critSecOf findings).take 5).map (·.title) }]

/-- Phase 2 of the roadmap (lines 1374-1382). -/
def phase2Of (findings : List Finding) : List RoadmapPhase :=
  if (highPriorityOf findings).isEmpty then [] else
    [{ phase := 2, name := "High Priority Issues", duration := "Weeks 2-3",
       items := ((highPriorityOf findings).take 5).map (·.title) }]

/-- Phase 3 of the roadmap (lines 1384-1392). -/
def phase3Of (findings : List Finding) : List RoadmapPhase :=
  if (mediumPriorityOf findings).isEmpty then [] else
    [{ phase := 3, name := "Medium Priority Improvements", duration := "Weeks 4-6",
       items := ((mediumPriorityOf findings).take 5).map (·.title) }]

/-- _generate_roadmap (lines 1359-1394). -/
def generateRoadmap (findings : List Finding) : List RoadmapPhase :=
  phase1Of findings ++ phase2Of findings ++ phase3Of findings

/-- executive_summary (lines 1314-1324). -/
structure ExecutiveSummary where
  overallScore : ℚ
  readinessLevel : String
  totalFindings : Nat
  criticalCount : Nat
  highCount : Nat
  mediumCount : Nat
  lowCount : Nat
  estimatedRemediationHours : ℚ
  recommendation : String
  deriving DecidableEq

/-- One value of the dimension_scores report object (lines 1327-1336). -/
structure DimEntry where
  dimension : Dimension
  score : ℚ
  weight : ℚ
  recommendations : List String
  findingCount : Nat
  deriving DecidableEq

/-- The report dict (lines 1307-1344); metadata, technology_stack and
statistics (informational, unused by the claims) are omitted. -/
structure Report where
  executiveSummary : ExecutiveSummary
  dimensionEntries : List DimEntry
  findingsCritical : List Finding
  findingsHigh : List Finding
  findingsMedium : List Finding
  findingsLow : List Finding
  remediationRoadmap : List RoadmapPhase
  deriving DecidableEq

/-- _generate_report (lines 1282-1346).  dimension_scores is iterated in
dict insertion order, which is the enum declaration order because the
analyzer table runs dimensions in that order. -/
def generateReport (overallScore : ℚ) (st : AssessState) : Report :=
  let criticalFindings := st.findings.filter (fun f => decide (f.severity = Severity.critical))
  let highFindings := st.findings.filter (fun f => decide (f.severity = Severity.high))
  let mediumFindings := st.findings.filter (fun f => decide (f.severity = Severity.medium))
  let lowFindings := st.findings.filter (fun f => decide (f.severity = Severity.low))
  let totalEffort := (st.findings.map (·.effortHours)).sum
  { executiveSummary :=
      { overallScore := roundTo1 overallScore,
        readinessLevel := readinessLevelOf overallScore,
        totalFindings := st.findings.length,
        criticalCount := criticalFindings.length,
        highCount := highFindings.length,
        mediumCount := mediumFindings.length,
        lowCount := lowFindings.length,
        estimatedRemediationHours := roundTo1 totalEffort,
        recommendation :=
          generateExecutiveRecommendation overallScore criticalFindings.length },
    dimensionEntries := allDimensions.filterMap (fun d =>
      (st.dimensionScores d).map (fun sc =>
        { dimension := d, score := sc.score, weight := DIMENSION_WEIGHTS d,
          recommendations := sc.recommendations,
          findingCount := sc.findings.length })),
    findingsCritical := criticalFindings,
    findingsHigh := highFindings,
    findingsMedium := mediumFindings,
    findingsLow := lowFindings,
    remediationRoadmap := generateRoadmap st.findings }

/- ---------------- run_assessment (lines 115-166) ---------------- -/

/-- The outcome of run_assessment: either the error dict
literally built at line 127 (the only key it carries is the message), or a
completed report. -/
inductive RunOutcome where
  | cloneFailure (message : String)
  | completed (report : Report)
  deriving DecidableEq

/-- The analyzer progress lines the loop prints, as a trace of what ran. -/
def enabledNames (focus : List String) : List String :=
  (analyzerTable.filter (fun e => shouldAnalyze focus (pyName e.1))).map (·.1)

/-- run_assessment (lines 115-166): the clone result is either None
(clone failure, lines 126-127: immediate error return, nothing else runs)
or a snapshot, in which case discovery runs, then the enabled analyzers,
then scoring and reporting.  The second component is the trace of executed
phases (modelling the progress printing). -/
def runAssessment (clone : Option Snapshot) (focus : List String) :
    RunOutcome × List String :=
  match clone with
  | none => (.cloneFailure "Failed to clone repository", [])
  | some snap =>
    let fs := effectiveFocus focus
    let st := runAnalyzers snap fs
    (.completed (generateReport (calculateOverallScore st.dimensionScores) st),
     "discovery" :: enabledNames fs)

/-- The run report for a successfully cloned snapshot. -/
def runReport (snap : Snapshot) (focus : List String) : Report :=
  let st := runAnalyzers snap (effectiveFocus focus)
  generateReport (calculateOverallScore st.dimensionScores) st

/- ------- exception-aware analyzer loop (claim C2, lines 152-155) ------- -/

/-- One iteration of the analyzer loop under python exception semantics:
the loop body has no try/except, so once an exception is raised every later
iteration (and the rest of run_assessment) is skipped and the exception
propagates. -/
def stepE (snap : Snapshot) (focus : List String)
    (acc : Except String AssessState)
    (e : String × Dimension × (Snapshot → AssessState → Except String AssessState)) :
    Except String AssessState :=
  match acc with
  | .error m => .error m
  | .ok st => if shouldAnalyze focus (pyName e.1) then e.2.2 snap st else .ok st

/-- The analyzer loop over implementations that may raise. -/
def runAnalyzersE (snap : Snapshot) (focus : List String)
    (table : List (String × Dimension × (Snapshot → AssessState → Except String AssessState))) :
    Except String AssessState :=
  table.foldl (stepE snap focus) (.ok initState)

/-- Lift a never-raising analyzer of the built-in table into the
exception-aware loop. -/
def liftE (e : String × Dimension × (Snapshot → AnalyzerOut)) :
    String × Dimension × (Snapshot → AssessState → Except String AssessState) :=
  (e.1, e.2.1, fun snap st => .ok (insertDS st e.2.1 (e.2.2 snap)))

/- ---------------- spec-side definition for claim C1 ---------------- -/

/-- Modelled from the spec words for the overall-score refinement claim:
the (score, weight) pairs of exactly the dimensions present in the
dimension_scores map, weights from the fixed table. -/
def specPresent (ds : Dimension → Option DimensionScore) : List (ℚ × ℚ) :=
  allDimensions.filterMap (fun d =>
    (ds d).map (fun sc => (sc.score, DIMENSION_WEIGHTS d)))

/-- Modelled from the spec words: sum(dimension.score * weight) /
sum(weight) over only the dimensions that ran; 0 if none ran. -/
def specWeightedAverage (ds : Dimension → Option DimensionScore) : ℚ :=
  let ps := specPresent ds
  if ps = [] then 0
  else ((ps.map (fun p => p.1 * p.2)).sum) / ((ps.map Prod.snd).sum)

def scoreInRange (sc : DimensionScore) : Prop := 0 ≤ sc.score ∧ sc.score ≤ 100

/-- A finding is well-formed for dimension d: its severity is one the
analyzers produce (never INFO) and it carries its analyzer dimension. -/
def findingOk (d : Dimension) (f : Finding) : Prop :=
  f.severity ≠ Severity.info ∧ f.dimension = d

/-- The finding _analyze_architecture records for a snapshot without a src
directory (used as a concrete witness input). -/
def noSrcFinding : Finding :=
  { title := "No src directory structure", severity := .low,
    dimension := .architecture, location := "project root",
    remediation := "Consider organizing code in src/ directory",
    effortHours := 8 }

/-- A critical security finding used as a concrete roadmap witness input. -/
def witnessCritFinding : Finding :=
  { title := "Hardcoded API Key detected", severity := .critical,
    dimension := .security, location := "config.py",
    remediation := "Remove secret, rotate credentials, use secret management",
    effortHours := 2 }

/-- The CRITICAL SECURITY finding _analyze_security creates for a detected
hardcoded API key at path p (pattern index 0 of the secret table). -/
def apiKeyFindingAt (p : String) : Finding :=
  { title := "Hardcoded API Key detected", severity := .critical,
    dimension := .security, location := p,
    remediation := "Remove secret, rotate credentials, use secret management",
    effortHours := 2 }

/- ======================= proofs ======================= -/

lemma weight_pos (d : Dimension) : 0 < DIMENSION_WEIGHTS d := by
  cases d <;> norm_num [DIMENSION_WEIGHTS]

/-- The overall-score loop accumulates exactly the sums over the present
dimensions of the traversed weight items. -/
lemma overall_foldl (ds : Dimension → Option DimensionScore)
    (l : List (Dimension × ℚ)) (a b : ℚ) :
    l.foldl (overallStep ds) (a, b)
      = (a + ((l.filterMap (fun pr => (ds pr.1).map (fun sc => (sc.score, pr.2)))).map
              (fun p => p.1 * p.2)).sum,
         b + ((l.filterMap (fun pr => (ds pr.1).map (fun sc => (sc.score, pr.2)))).map
              Prod.snd).sum) := by
  induction l generalizing a b with
  | nil => simp
  | cons e t ih =>
    rw [List.foldl_cons]
    cases hds : ds e.1 with
    | none =>
      have hstep : overallStep ds (a, b) e = (a, b) := by
        simp [overallStep, hds]
      have hfm : (fun pr => Option.map (fun sc => (sc.score, pr.2)) (ds pr.1)) e = none := by
        simp [hds]
      rw [hstep, ih, List.filterMap_cons]
      simp [hfm]
    | some sc =>
      have hstep : overallStep ds (a, b) e = (a + sc.score * e.2, b + e.2) := by
        simp [overallStep, hds]
      have hfm : (fun pr => Option.map (fun sc => (sc.score, pr.2)) (ds pr.1)) e
          = some (sc.score, e.2) := by
        simp [hds]
      rw [hstep, ih, List.filterMap_cons]
      simp only [hfm, List.map_cons, List.sum_cons, Prod.mk.injEq]
      constructor <;> ring

lemma specPresent_eq (ds : Dimension → Option DimensionScore) :
    specPresent ds
      = weightItems.filterMap (fun pr => (ds pr.1).map (fun sc => (sc.score, pr.2))) := by
  unfold specPresent weightItems
  rw [List.filterMap_map]
  rfl

lemma specPresent_snd_pos (ds : Dimension → Option DimensionScore) :
    ∀ p ∈ specPresent ds, 0 < p.2 := by
  intro p hp
  simp only [specPresent, List.mem_filterMap] at hp
  obtain ⟨d, -, hd⟩ := hp
  cases hds : ds d with
  | none => rw [hds] at hd; exact absurd hd (by simp)
  | some sc =>
    rw [hds] at hd
    have hpd : (sc.score, DIMENSION_WEIGHTS d) = p := by simpa using hd
    rw [← hpd]
    exact weight_pos d

/-- Claim C1: the overall score returned by _calculate_overall_score equals
sum(dimension.score * weight) / sum(weight) over exactly the dimensions
present in the dimension_scores map (weights from DIMENSION_WEIGHTS,
skipped dimensions contributing to neither sum), and it is 0 when no
dimension ran. -/
theorem c1_overall_score_weighted_average (ds : Dimension → Option DimensionScore) :
    calculateOverallScore ds = specWeightedAverage ds
    ∧ ((∀ d, ds d = none) → calculateOverallScore ds = 0) := by
  have hfold := overall_foldl ds weightItems 0 0
  have hps := (specPresent_eq ds).symm
  have hmain : calculateOverallScore ds = specWeightedAverage ds := by
    unfold calculateOverallScore specWeightedAverage
    simp only [hfold, hps, zero_add]
    by_cases hempty : specPresent ds = []
    · simp [hempty]
    · have hpos : 0 < ((specPresent ds).map Prod.snd).sum := by
        apply List.sum_pos
        · intro x hx
          simp only [List.mem_map] at hx
          obtain ⟨p, hp, rfl⟩ := hx
          exact specPresent_snd_pos ds p hp
        · simpa using hempty
      rw [if_neg (ne_of_gt hpos), if_neg hempty]
  refine ⟨hmain, fun hnone => ?_⟩
  rw [hmain]
  unfold specWeightedAverage
  have hemp : specPresent ds = [] := by
    simp [specPresent, hnone]
  simp [hemp]

/-- Claim C1 witness: the no-dimension run evaluates to overall score 0. -/
theorem c1_witness :
    (∀ d : Dimension, (fun _ : Dimension => (none : Option DimensionScore)) d = none)
    ∧ calculateOverallScore (fun _ : Dimension => none) = 0 :=
  ⟨fun _ => rfl,
    (c1_overall_score_weighted_average (fun _ : Dimension => none)).2 (fun _ => rfl)⟩

/- ---------------- claim C7 ---------------- -/

/-- Claim C7: when the repository snapshot cannot be obtained, the result of
run_assessment is exactly the error object with the clone-failure message
(no dimension_scores, no other report fields), and neither discovery nor
any analyzer runs (empty phase trace). -/
theorem c7_clone_failure_short_circuits (focus : List String) :
    runAssessment none focus
      = (RunOutcome.cloneFailure "Failed to clone repository", []) := rfl

/- ---------------- claim C2 (corrected) ---------------- -/

lemma foldl_stepE_error (snap : Snapshot) (focus : List String) (m : String)
    (l : List (String × Dimension × (Snapshot → AssessState → Except String AssessState))) :
    l.foldl (stepE snap focus) (Except.error m) = Except.error m := by
  induction l with
  | nil => rfl
  | cons e t ih => simpa [List.foldl_cons, stepE] using ih

/-- Claim C2 counterexample: the analyzer loop has no try/except, so an
enabled analyzer that raises aborts the whole run rather than being
converted to an empty contribution: at this input the loop result is the
propagated error, not a completed state. -/
theorem c2_counterexample :
    runAnalyzersE ⟨[]⟩ ["all"]
      [("Security", Dimension.security, fun _ _ => Except.error "permission denied")]
      = Except.error "permission denied" := rfl

/-- Claim C2 amended: an internal error raised by any enabled analyzer is
not caught by the orchestrator; it propagates out of the analyzer loop and
aborts the assessment (no report is produced). -/
theorem c2_amended_analyzer_error_propagates (snap : Snapshot) (focus : List String)
    (pre post : List (String × Dimension × (Snapshot → AssessState → Except String AssessState)))
    (n : String) (d : Dimension) (msg : String) (st : AssessState)
    (hpre : runAnalyzersE snap focus pre = Except.ok st)
    (hen : shouldAnalyze focus (pyName n) = true) :
    runAnalyzersE snap focus (pre ++ (n, d, fun _ _ => Except.error msg) :: post)
      = Except.error msg := by
  unfold runAnalyzersE at hpre ⊢
  rw [List.foldl_append, hpre, List.foldl_cons]
  have hstep : stepE snap focus (Except.ok st) (n, d, fun _ _ => Except.error msg)
      = Except.error msg := by
    simp [stepE, hen]
  rw [hstep, foldl_stepE_error]

/-- Claim C2 amended witness: a concrete enabled failing analyzer aborts the
run with its error. -/
theorem c2_amended_witness :
    (runAnalyzersE ⟨[]⟩ ["all"] [] = Except.ok initState)
    ∧ shouldAnalyze ["all"] (pyName "Security") = true
    ∧ runAnalyzersE ⟨[]⟩ ["all"]
        ([] ++ ("Security", Dimension.security,
          fun _ _ => Except.error "analyzer crashed") :: [])
        = Except.error "analyzer crashed" :=
  ⟨rfl, by decide,
    c2_amended_analyzer_error_propagates ⟨[]⟩ ["all"] [] [] "Security"
      Dimension.security "analyzer crashed" initState rfl (by decide)⟩

/- ---------------- claim C3 ---------------- -/

lemma clamp0_nonneg (q : ℚ) : 0 ≤ clamp0 q := by
  by_cases h : q < 0
  · simp [clamp0, h]
  · simp only [clamp0, if_neg h]
    exact le_of_not_lt h

lemma clamp0_le_of_le (q c : ℚ) (h : q ≤ c) (hc : 0 ≤ c) : clamp0 q ≤ c := by
  by_cases h0 : q < 0
  · simpa [clamp0, h0] using hc
  · simpa [clamp0, h0] using h

/-- Every mkOut-packaged analyzer score is in [0, 100] as soon as the raw
score never exceeds the ceiling 100. -/
lemma mkOut_score_range (d : Dimension) (raw : ℚ) (fs : List Finding)
    (h : raw ≤ 100) :
    0 ≤ (mkOut d raw fs).dimScore.score ∧ (mkOut d raw fs).dimScore.score ≤ 100 :=
  ⟨clamp0_nonneg raw, clamp0_le_of_le raw 100 h (by norm_num)⟩

lemma vulnSeverityPenalty_nonneg (s : String) : 0 ≤ vulnSeverityPenalty s := by
  unfold vulnSeverityPenalty
  split_ifs <;> norm_num

lemma analyzeSecurity_range (snap : Snapshot) :
    scoreInRange (analyzeSecurity snap).dimScore := by
  unfold analyzeSecurity
  dsimp only
  apply mkOut_score_range
  have h1 : (0:ℚ) ≤ 15 * (scanForSecrets snap).length := by positivity
  have h2 : (0:ℚ) ≤ ((scanVulnerablePatterns snap).map
      (fun pr => vulnSeverityPenalty pr.1.sev)).sum := by
    apply List.sum_nonneg
    intro x hx
    simp only [List.mem_map] at hx
    obtain ⟨p, -, rfl⟩ := hx
    exact vulnSeverityPenalty_nonneg _
  have h3 : (0:ℚ) ≤ 8 * (scanDependencyVulnerabilities snap).length := by positivity
  have h4 : (0:ℚ) ≤ 10 * (analyzeAuthentication snap).length := by positivity
  have h5 : (0:ℚ) ≤ 10 * (analyzeCryptography snap).length := by positivity
  linarith

lemma analyzeArchitecture_range (snap : Snapshot) :
    scoreInRange (analyzeArchitecture snap).dimScore := by
  unfold analyzeArchitecture
  dsimp only
  apply mkOut_score_range
  split_ifs <;> norm_num

lemma analyzeReliability_range (snap : Snapshot) :
    scoreInRange (analyzeReliability snap).dimScore := by
  unfold analyzeReliability
  dsimp only
  apply mkOut_score_range
  split_ifs <;> norm_num

lemma analyzePerformance_range (snap : Snapshot) :
    scoreInRange (analyzePerformance snap).dimScore := by
  unfold analyzePerformance
  dsimp only
  apply mkOut_score_range
  split_ifs <;> norm_num

lemma analyzeObservability_range (snap : Snapshot) :
    scoreInRange (analyzeObservability snap).dimScore := by
  unfold analyzeObservability
  dsimp only
  apply mkOut_score_range
  split_ifs <;> norm_num

lemma analyzeTesting_range (snap : Snapshot) :
    scoreInRange (analyzeTesting snap).dimScore := by
  unfold analyzeTesting
  dsimp only
  apply mkOut_score_range
  split_ifs <;> norm_num

lemma analyzeDevops_range (snap : Snapshot) :
    scoreInRange (analyzeDevops snap).dimScore := by
  unfold analyzeDevops
  dsimp only
  apply mkOut_score_range
  split_ifs <;> norm_num

lemma analyzeData_range (snap : Snapshot) :
    scoreInRange (analyzeData snap).dimScore := by
  unfold analyzeData
  dsimp only
  apply mkOut_score_range
  split_ifs <;> norm_num

lemma analyzeApi_range (snap : Snapshot) :
    scoreInRange (analyzeApi snap).dimScore := by
  unfold analyzeApi
  dsimp only
  apply mkOut_score_range
  split_ifs <;> norm_num

lemma analyzeDocumentation_range (snap : Snapshot) :
    scoreInRange (analyzeDocumentation snap).dimScore := by
  unfold analyzeDocumentation
  dsimp only
  apply mkOut_score_range
  split_ifs <;> norm_num

lemma analyzeCompliance_range (snap : Snapshot) :
    scoreInRange (analyzeCompliance snap).dimScore := by
  unfold analyzeCompliance
  dsimp only
  apply mkOut_score_range
  split_ifs <;> norm_num

lemma analyzeCost_range (snap : Snapshot) :
    scoreInRange (analyzeCost snap).dimScore := by
  unfold analyzeCost
  constructor <;> norm_num

lemma analyzeDependencies_range (snap : Snapshot) :
    scoreInRange (analyzeDependencies snap).dimScore := by
  unfold analyzeDependencies
  dsimp only
  apply mkOut_score_range
  split_ifs <;> norm_num

lemma analyzeConfiguration_range (snap : Snapshot) :
    scoreInRange (analyzeConfiguration snap).dimScore := by
  unfold analyzeConfiguration
  dsimp only
  apply mkOut_score_range
  split_ifs <;> norm_num

lemma analyzeTeamReadiness_range (snap : Snapshot) :
    scoreInRange (analyzeTeamReadiness snap).dimScore := by
  unfold analyzeTeamReadiness
  dsimp only
  apply mkOut_score_range
  split_ifs <;> norm_num

/-- Any property of analyzer-produced DimensionScores is an invariant of
the analyzer loop. -/
lemma foldl_ds_inv (Q : DimensionScore → Prop) (snap : Snapshot)
    (focus : List String) :
    ∀ (table : List (String × Dimension × (Snapshot → AnalyzerOut))),
      (∀ e ∈ table, Q (e.2.2 snap).dimScore) →
      ∀ (st0 : AssessState),
        (∀ d sc, st0.dimensionScores d = some sc → Q sc) →
        ∀ d sc, (table.foldl (runStep snap focus) st0).dimensionScores d = some sc → Q sc := by
  intro table
  induction table with
  | nil => intro _ st0 h0; exact h0
  | cons e t ih =>
    intro hQ st0 h0 d sc
    rw [List.foldl_cons]
    apply ih (fun e' he' => hQ e' (List.mem_cons_of_mem _ he'))
    intro d' sc' h'
    unfold runStep at h'
    by_cases hg : shouldAnalyze focus (pyName e.1) = true
    · simp only [hg, if_true] at h'
      unfold insertDS at h'
      dsimp only at h'
      by_cases hd : d' = e.2.1
      · rw [if_pos hd] at h'
        rw [← Option.some.inj h']
        exact hQ e (List.mem_cons_self _ _)
      · rw [if_neg hd] at h'
        exact h0 d' sc' h'
    · simp only [Bool.not_eq_true] at hg
      simp only [hg, Bool.false_eq_true, if_false] at h'
      exact h0 d' sc' h'

/-- Claim C3: every DimensionScore stored by any built-in analyzer during a
run has its score in the closed interval [0, 100] (the raw penalty
arithmetic is clamped). -/
theorem c3_scores_clamped (snap : Snapshot) (focus : List String)
    (d : Dimension) (sc : DimensionScore)
    (h : (runAnalyzers snap focus).dimensionScores d = some sc) :
    0 ≤ sc.score ∧ sc.score ≤ 100 := by
  refine foldl_ds_inv scoreInRange snap focus analyzerTable ?_ initState ?_ d sc h
  · intro e he
    simp only [analyzerTable, List.mem_cons, List.not_mem_nil, or_false] at he
    rcases he with rfl|rfl|rfl|rfl|rfl|rfl|rfl|rfl|rfl|rfl|rfl|rfl|rfl|rfl|rfl
    exacts [analyzeSecurity_range snap, analyzeArchitecture_range snap,
      analyzeReliability_range snap, analyzePerformance_range snap,
      analyzeObservability_range snap, analyzeTesting_range snap,
      analyzeDevops_range snap, analyzeData_range snap, analyzeApi_range snap,
      analyzeDocumentation_range snap, analyzeCompliance_range snap,
      analyzeCost_range snap, analyzeDependencies_range snap,
      analyzeConfiguration_range snap, analyzeTeamReadiness_range snap]
  · intro d' sc' h'
    simp [initState] at h'

/-- Claim C3 witness: the security score of a concrete run is clamped to
[0, 100]. -/
theorem c3_witness :
    ((runAnalyzers ⟨[]⟩ ["security"]).dimensionScores Dimension.security
        = some (analyzeSecurity ⟨[]⟩).dimScore)
    ∧ (0 ≤ (analyzeSecurity ⟨[]⟩).dimScore.score
        ∧ (analyzeSecurity ⟨[]⟩).dimScore.score ≤ 100) :=
  ⟨rfl, c3_scores_clamped ⟨[]⟩ ["security"] Dimension.security _ rfl⟩

/- ------ findings invariants of the run (used by claims C6, C9, C10) ------ -/

lemma scanVuln_pat_mem (snap : Snapshot) (pr : VulnPat × String)
    (h : pr ∈ scanVulnerablePatterns snap) :
    ∃ i, (i, pr.1) ∈ vulnPatternsIdx := by
  unfold scanVulnerablePatterns at h
  obtain ⟨fl, -, hm⟩ := List.mem_flatMap.mp h
  split_ifs at hm
  case neg => simp at hm
  obtain ⟨a, ha, hg⟩ := List.mem_filterMap.mp hm
  split_ifs at hg
  injection hg with h2
  subst h2
  exact ⟨a.1, by simpa using ha⟩

lemma analyzeAuthentication_ok (snap : Snapshot) :
    ∀ f ∈ analyzeAuthentication snap, findingOk Dimension.security f := by
  intro f hf
  unfold analyzeAuthentication at hf
  obtain ⟨fl, -, hm⟩ := List.mem_filterMap.mp hf
  split_ifs at hm
  injection hm with h2
  subst h2
  exact ⟨by simp, rfl⟩

lemma analyzeCryptography_ok (snap : Snapshot) :
    ∀ f ∈ analyzeCryptography snap, findingOk Dimension.security f := by
  intro f hf
  unfold analyzeCryptography at hf
  obtain ⟨fl, -, hm⟩ := List.mem_flatMap.mp hf
  split_ifs at hm
  case neg => simp at hm
  obtain ⟨pr, -, hg⟩ := List.mem_filterMap.mp hm
  split_ifs at hg
  injection hg with h2
  subst h2
  exact ⟨by simp, rfl⟩

lemma analyzeSecurity_findings (snap : Snapshot) :
    ∀ f ∈ (analyzeSecurity snap).newFindings, findingOk Dimension.security f := by
  intro f hf
  unfold analyzeSecurity at hf
  dsimp only [mkOut] at hf
  simp only [List.mem_append] at hf
  rcases hf with (((hf | hf) | hf) | hf) | hf
  · obtain ⟨s, -, rfl⟩ := List.mem_map.mp hf
    exact ⟨by simp, rfl⟩
  · obtain ⟨p, hp, rfl⟩ := List.mem_map.mp hf
    refine ⟨?_, rfl⟩
    obtain ⟨i, hi⟩ := scanVuln_pat_mem snap p hp
    have hall : ∀ pr ∈ vulnPatternsIdx, severityOfString pr.2.sev ≠ Severity.info := by
      decide
    exact hall (i, p.1) hi
  · obtain ⟨dv, -, rfl⟩ := List.mem_map.mp hf
    exact ⟨by simp, rfl⟩
  · exact analyzeAuthentication_ok snap f hf
  · exact analyzeCryptography_ok snap f hf

lemma analyzeArchitecture_findings (snap : Snapshot) :
    ∀ f ∈ (analyzeArchitecture snap).newFindings, findingOk Dimension.architecture f := by
  intro f hf
  unfold analyzeArchitecture at hf
  dsimp only [mkOut] at hf
  split_ifs at hf
  · simp at hf
  · simp only [List.mem_singleton] at hf
    subst hf
    exact ⟨by decide, rfl⟩

lemma analyzeReliability_findings (snap : Snapshot) :
    ∀ f ∈ (analyzeReliability snap).newFindings, findingOk Dimension.reliability f := by
  intro f hf
  unfold analyzeReliability at hf
  dsimp only [mkOut] at hf
  rcases List.mem_append.mp hf with hf | hf <;> split_ifs at hf <;>
    simp only [List.not_mem_nil, List.mem_singleton] at hf <;> subst hf <;>
    exact ⟨by decide, rfl⟩

lemma analyzePerformance_findings (snap : Snapshot) :
    ∀ f ∈ (analyzePerformance snap).newFindings, findingOk Dimension.performance f := by
  intro f hf
  unfold analyzePerformance at hf
  dsimp only [mkOut] at hf
  split_ifs at hf
  · simp at hf
  · simp only [List.mem_singleton] at hf
    subst hf
    exact ⟨by decide, rfl⟩

lemma analyzeObservability_findings (snap : Snapshot) :
    ∀ f ∈ (analyzeObservability snap).newFindings, findingOk Dimension.observability f := by
  intro f hf
  unfold analyzeObservability at hf
  dsimp only [mkOut] at hf
  rcases List.mem_append.mp hf with hf | hf <;> split_ifs at hf <;>
    simp only [List.not_mem_nil, List.mem_singleton] at hf <;> subst hf <;>
    exact ⟨by decide, rfl⟩

lemma analyzeTesting_findings (snap : Snapshot) :
    ∀ f ∈ (analyzeTesting snap).newFindings, findingOk Dimension.testing f := by
  intro f hf
  unfold analyzeTesting at hf
  dsimp only [mkOut] at hf
  rcases List.mem_append.mp hf with hf | hf <;> split_ifs at hf <;>
    simp only [List.not_mem_nil, List.mem_singleton] at hf <;> subst hf <;>
    exact ⟨by decide, rfl⟩

lemma analyzeDevops_findings (snap : Snapshot) :
    ∀ f ∈ (analyzeDevops snap).newFindings, findingOk Dimension.devops f := by
  intro f hf
  unfold analyzeDevops at hf
  dsimp only [mkOut] at hf
  rcases List.mem_append.mp hf with hf | hf <;> split_ifs at hf <;>
    simp only [List.not_mem_nil, List.mem_singleton] at hf <;> subst hf <;>
    exact ⟨by decide, rfl⟩

lemma analyzeData_findings (snap : Snapshot) :
    ∀ f ∈ (analyzeData snap).newFindings, findingOk Dimension.data_management f := by
  intro f hf
  unfold analyzeData at hf
  dsimp only [mkOut] at hf
  split_ifs at hf
  · simp only [List.mem_singleton] at hf
    subst hf
    exact ⟨by decide, rfl⟩
  · simp at hf

lemma analyzeApi_findings (snap : Snapshot) :
    ∀ f ∈ (analyzeApi snap).newFindings, findingOk Dimension.api_contracts f := by
  intro f hf
  unfold analyzeApi at hf
  dsimp only [mkOut] at hf
  split_ifs at hf
  · simp at hf
  · simp only [List.mem_singleton] at hf
    subst hf
    exact ⟨by decide, rfl⟩

lemma analyzeDocumentation_findings (snap : Snapshot) :
    ∀ f ∈ (analyzeDocumentation snap).newFindings, findingOk Dimension.documentation f := by
  intro f hf
  unfold analyzeDocumentation at hf
  dsimp only [mkOut] at hf
  rcases List.mem_append.mp hf with hf | hf <;> split_ifs at hf <;>
    simp only [List.not_mem_nil, List.mem_singleton] at hf <;> subst hf <;>
    exact ⟨by decide, rfl⟩

lemma analyzeCompliance_findings (snap : Snapshot) :
    ∀ f ∈ (analyzeCompliance snap).newFindings, findingOk Dimension.compliance f := by
  intro f hf
  unfold analyzeCompliance at hf
  dsimp only [mkOut] at hf
  split_ifs at hf
  · simp at hf
  · simp only [List.mem_singleton] at hf
    subst hf
    exact ⟨by decide, rfl⟩

lemma analyzeDependencies_findings (snap : Snapshot) :
    ∀ f ∈ (analyzeDependencies snap).newFindings, findingOk Dimension.dependencies f := by
  intro f hf
  unfold analyzeDependencies at hf
  dsimp only [mkOut] at hf
  split_ifs at hf
  · simp at hf
  · simp only [List.mem_singleton] at hf
    subst hf
    exact ⟨by decide, rfl⟩

lemma analyzeConfiguration_findings (snap : Snapshot) :
    ∀ f ∈ (analyzeConfiguration snap).newFindings, findingOk Dimension.configuration f := by
  intro f hf
  unfold analyzeConfiguration at hf
  dsimp only [mkOut] at hf
  split_ifs at hf
  · simp only [List.mem_singleton] at hf
    subst hf
    exact ⟨by decide, rfl⟩
  · simp at hf

lemma analyzeTeamReadiness_findings (snap : Snapshot) :
    ∀ f ∈ (analyzeTeamReadiness snap).newFindings, findingOk Dimension.team_readiness f := by
  intro f hf
  unfold analyzeTeamReadiness at hf
  dsimp only [mkOut] at hf
  split_ifs at hf
  · simp at hf
  · simp only [List.mem_singleton] at hf
    subst hf
    exact ⟨by decide, rfl⟩

/-- Any property of analyzer-produced findings is an invariant of the
analyzer loop. -/
lemma foldl_findings_inv (P : Finding → Prop) (snap : Snapshot) (focus : List String) :
    ∀ (table : List (String × Dimension × (Snapshot → AnalyzerOut))),
      (∀ e ∈ table, ∀ f ∈ (e.2.2 snap).newFindings, P f) →
      ∀ st0, (∀ f ∈ st0.findings, P f) →
        ∀ f ∈ (table.foldl (runStep snap focus) st0).findings, P f := by
  intro table
  induction table with
  | nil => intro _ st0 h0; exact h0
  | cons e t ih =>
    intro hP st0 h0
    rw [List.foldl_cons]
    apply ih (fun e' he' => hP e' (List.mem_cons_of_mem _ he'))
    intro f hf
    unfold runStep at hf
    split_ifs at hf
    · unfold insertDS at hf
      dsimp only at hf
      rcases List.mem_append.mp hf with hf | hf
      · exact h0 f hf
      · exact hP e (List.mem_cons_self _ _) f hf
    · exact h0 f hf

lemma findingOk_ne_cost {d : Dimension} (hd : d ≠ Dimension.cost_optimization)
    {f : Finding} (h : findingOk d f) :
    f.severity ≠ Severity.info ∧ f.dimension ≠ Dimension.cost_optimization :=
  ⟨h.1, h.2 ▸ hd⟩

/-- Every finding collected by a run has a non-INFO severity and never the
cost_optimization dimension. -/
lemma run_findings_ok (snap : Snapshot) (focus : List String) :
    ∀ f ∈ (runAnalyzers snap focus).findings,
      f.severity ≠ Severity.info ∧ f.dimension ≠ Dimension.cost_optimization := by
  refine foldl_findings_inv _ snap focus analyzerTable ?_ initState ?_
  · intro e he
    simp only [analyzerTable, List.mem_cons, List.not_mem_nil, or_false] at he
    rcases he with rfl|rfl|rfl|rfl|rfl|rfl|rfl|rfl|rfl|rfl|rfl|rfl|rfl|rfl|rfl
    · exact fun f hf => findingOk_ne_cost (by decide) (analyzeSecurity_findings snap f hf)
    · exact fun f hf => findingOk_ne_cost (by decide) (analyzeArchitecture_findings snap f hf)
    · exact fun f hf => findingOk_ne_cost (by decide) (analyzeReliability_findings snap f hf)
    · exact fun f hf => findingOk_ne_cost (by decide) (analyzePerformance_findings snap f hf)
    · exact fun f hf => findingOk_ne_cost (by decide) (analyzeObservability_findings snap f hf)
    · exact fun f hf => findingOk_ne_cost (by decide) (analyzeTesting_findings snap f hf)
    · exact fun f hf => findingOk_ne_cost (by decide) (analyzeDevops_findings snap f hf)
    · exact fun f hf => findingOk_ne_cost (by decide) (analyzeData_findings snap f hf)
    · exact fun f hf => findingOk_ne_cost (by decide) (analyzeApi_findings snap f hf)
    · exact fun f hf => findingOk_ne_cost (by decide) (analyzeDocumentation_findings snap f hf)
    · exact fun f hf => findingOk_ne_cost (by decide) (analyzeCompliance_findings snap f hf)
    · exact fun f hf => absurd hf (by simp [analyzeCost])
    · exact fun f hf => findingOk_ne_cost (by decide) (analyzeDependencies_findings snap f hf)
    · exact fun f hf => findingOk_ne_cost (by decide) (analyzeConfiguration_findings snap f hf)
    · exact fun f hf => findingOk_ne_cost (by decide) (analyzeTeamReadiness_findings snap f hf)
  · intro f hf
    simp [initState] at hf

/- ---------------- claims C10, C6 ---------------- -/

lemma partition_lengths (l : List Finding) (h : ∀ f ∈ l, f.severity ≠ Severity.info) :
    (l.filter (fun f => decide (f.severity = Severity.critical))).length
    + (l.filter (fun f => decide (f.severity = Severity.high))).length
    + (l.filter (fun f => decide (f.severity = Severity.medium))).length
    + (l.filter (fun f => decide (f.severity = Severity.low))).length
    = l.length := by
  induction l with
  | nil => simp
  | cons a t ih =>
    specialize ih (fun f hf => h f (List.mem_cons_of_mem _ hf))
    have ha := h a (List.mem_cons_self _ _)
    cases hsev : a.severity with
    | critical => simp [List.filter_cons, hsev]; omega
    | high => simp [List.filter_cons, hsev]; omega
    | medium => simp [List.filter_cons, hsev]; omega
    | low => simp [List.filter_cons, hsev]; omega
    | info => exact absurd hsev ha

lemma partition_effort (l : List Finding) (h : ∀ f ∈ l, f.severity ≠ Severity.info) :
    (((l.filter (fun f => decide (f.severity = Severity.critical)))
      ++ (l.filter (fun f => decide (f.severity = Severity.high)))
      ++ (l.filter (fun f => decide (f.severity = Severity.medium)))
      ++ (l.filter (fun f => decide (f.severity = Severity.low)))).map
        (fun f => f.effortHours)).sum
    = (l.map (fun f => f.effortHours)).sum := by
  induction l with
  | nil => simp
  | cons a t ih =>
    specialize ih (fun f hf => h f (List.mem_cons_of_mem _ hf))
    have ha := h a (List.mem_cons_self _ _)
    cases hsev : a.severity with
    | critical => simp [List.filter_cons, hsev] at ih ⊢; linarith
    | high => simp [List.filter_cons, hsev] at ih ⊢; linarith
    | medium => simp [List.filter_cons, hsev] at ih ⊢; linarith
    | low => simp [List.filter_cons, hsev] at ih ⊢; linarith
    | info => exact absurd hsev ha

lemma partition_mem (l : List Finding) (h : ∀ f ∈ l, f.severity ≠ Severity.info)
    (f : Finding) :
    (f ∈ l.filter (fun g => decide (g.severity = Severity.critical))
        ++ l.filter (fun g => decide (g.severity = Severity.high))
        ++ l.filter (fun g => decide (g.severity = Severity.medium))
        ++ l.filter (fun g => decide (g.severity = Severity.low)))
    ↔ f ∈ l := by
  simp only [List.mem_append, List.mem_filter, decide_eq_true_eq]
  constructor
  · rintro (((⟨hf, -⟩ | ⟨hf, -⟩) | ⟨hf, -⟩) | ⟨hf, -⟩) <;> exact hf
  · intro hf
    cases hsev : f.severity with
    | critical => exact Or.inl (Or.inl (Or.inl ⟨hf, rfl⟩))
    | high => exact Or.inl (Or.inl (Or.inr ⟨hf, rfl⟩))
    | medium => exact Or.inl (Or.inr ⟨hf, rfl⟩)
    | low => exact Or.inr ⟨hf, rfl⟩
    | info => exact absurd hsev (h f hf)

/-- Claim C10: no built-in analyzer ever produces the INFO severity, so in
every report the four findings arrays partition the collected findings and
total_findings is the sum of the four per-severity counts. -/
theorem c10_findings_partition (snap : Snapshot) (focus : List String) (ov : ℚ) :
    (∀ f ∈ (runAnalyzers snap focus).findings, f.severity ≠ Severity.info)
    ∧ (generateReport ov (runAnalyzers snap focus)).executiveSummary.totalFindings
      = (generateReport ov (runAnalyzers snap focus)).executiveSummary.criticalCount
        + (generateReport ov (runAnalyzers snap focus)).executiveSummary.highCount
        + (generateReport ov (runAnalyzers snap focus)).executiveSummary.mediumCount
        + (generateReport ov (runAnalyzers snap focus)).executiveSummary.lowCount
    ∧ (∀ f : Finding,
        f ∈ (generateReport ov (runAnalyzers snap focus)).findingsCritical
            ++ (generateReport ov (runAnalyzers snap focus)).findingsHigh
            ++ (generateReport ov (runAnalyzers snap focus)).findingsMedium
            ++ (generateReport ov (runAnalyzers snap focus)).findingsLow
          ↔ f ∈ (runAnalyzers snap focus).findings) := by
  have hno : ∀ f ∈ (runAnalyzers snap focus).findings, f.severity ≠ Severity.info :=
    fun f hf => (run_findings_ok snap focus f hf).1
  refine ⟨hno, ?_, ?_⟩
  · exact (partition_lengths _ hno).symm
  · intro f
    exact partition_mem _ hno f

/-- Claim C10 witness: a concrete collected finding has a non-INFO
severity. -/
theorem c10_witness :
    (noSrcFinding ∈ (runAnalyzers ⟨[]⟩ ["architecture"]).findings)
    ∧ noSrcFinding.severity ≠ Severity.info :=
  ⟨List.Mem.head _,
    (c10_findings_partition ⟨[]⟩ ["architecture"] 0).1 _ (List.Mem.head _)⟩

/-- Claim C6: the reported estimated_remediation_hours is the sum of
effort_hours over every finding of the four severity arrays, rounded to one
decimal place; and the reported overall score is derived only from the
dimension-score map (the effort total feeds no score). -/
theorem c6_effort_total (snap : Snapshot) (focus : List String) :
    (runReport snap focus).executiveSummary.estimatedRemediationHours
      = roundTo1 ((((runReport snap focus).findingsCritical
          ++ (runReport snap focus).findingsHigh
          ++ (runReport snap focus).findingsMedium
          ++ (runReport snap focus).findingsLow).map (fun f => f.effortHours)).sum)
    ∧ (runReport snap focus).executiveSummary.overallScore
      = roundTo1 (calculateOverallScore
          (runAnalyzers snap (effectiveFocus focus)).dimensionScores) := by
  have hno : ∀ f ∈ (runAnalyzers snap (effectiveFocus focus)).findings,
      f.severity ≠ Severity.info :=
    fun f hf => (run_findings_ok snap (effectiveFocus focus) f hf).1
  constructor
  · show roundTo1 (((runAnalyzers snap (effectiveFocus focus)).findings.map
        (fun f => f.effortHours)).sum) = _
    congr 1
    exact (partition_effort _ hno).symm
  · rfl

/- ---------------- claim C9 ---------------- -/

/-- The analyzer loop leaves the dimension_scores entry of d untouched
across entries whose dimension is not d. -/
lemma foldl_ds_skip (snap : Snapshot) (focus : List String) :
    ∀ (t : List (String × Dimension × (Snapshot → AnalyzerOut)))
      (st0 : AssessState) (d : Dimension),
      (∀ e ∈ t, e.2.1 ≠ d) →
      (t.foldl (runStep snap focus) st0).dimensionScores d = st0.dimensionScores d := by
  intro t
  induction t with
  | nil => intro st0 d _; rfl
  | cons e tl ih =>
    intro st0 d hne
    rw [List.foldl_cons, ih _ d (fun e' he' => hne e' (List.mem_cons_of_mem _ he'))]
    unfold runStep
    split_ifs
    · unfold insertDS
      dsimp only
      rw [if_neg (fun hh => (hne e (List.mem_cons_self _ _)) hh.symm)]
    · rfl

/-- Claim C9: the cost-optimization analyzer is constant: whenever enabled
it stores score 100, no findings and the fixed two recommendations, it
never contributes to the global findings list, and it enters the weighted
average with weight 1.5 and contribution 100 * 1.5 regardless of the
snapshot. -/
theorem c9_cost_analyzer_constant (snap : Snapshot) (focus : List String)
    (hen : shouldAnalyze focus (pyName "Cost Optimization") = true) :
    (analyzeCost snap).newFindings = []
    ∧ (analyzeCost snap).dimScore.score = 100
    ∧ (analyzeCost snap).dimScore.findings = []
    ∧ (analyzeCost snap).dimScore.recommendations
        = ["Review cloud resource sizing", "Implement auto-scaling"]
    ∧ (runAnalyzers snap focus).dimensionScores Dimension.cost_optimization
        = some (analyzeCost snap).dimScore
    ∧ (∀ f ∈ (runAnalyzers snap focus).findings,
        f.dimension ≠ Dimension.cost_optimization)
    ∧ DIMENSION_WEIGHTS Dimension.cost_optimization = 3 / 2
    ∧ (analyzeCost snap).dimScore.score * DIMENSION_WEIGHTS Dimension.cost_optimization
        = 150 := by
  refine ⟨rfl, rfl, rfl, rfl, ?_,
    fun f hf => (run_findings_ok snap focus f hf).2, rfl,
    by norm_num [analyzeCost, DIMENSION_WEIGHTS]⟩
  have hsplit : analyzerTable
      = [("Security", Dimension.security, analyzeSecurity),
         ("Architecture", Dimension.architecture, analyzeArchitecture),
         ("Reliability", Dimension.reliability, analyzeReliability),
         ("Performance", Dimension.performance, analyzePerformance),
         ("Observability", Dimension.observability, analyzeObservability),
         ("Testing", Dimension.testing, analyzeTesting),
         ("DevOps", Dimension.devops, analyzeDevops),
         ("Data Management", Dimension.data_management, analyzeData),
         ("API Contracts", Dimension.api_contracts, analyzeApi),
         ("Documentation", Dimension.documentation, analyzeDocumentation),
         ("Compliance", Dimension.compliance, analyzeCompliance)]
        ++ ("Cost Optimization", Dimension.cost_optimization, analyzeCost)
          :: [("Dependencies", Dimension.dependencies, analyzeDependencies),
              ("Configuration", Dimension.configuration, analyzeConfiguration),
              ("Team Readiness", Dimension.team_readiness, analyzeTeamReadiness)] := rfl
  unfold runAnalyzers
  rw [hsplit, List.foldl_append, List.foldl_cons]
  rw [foldl_ds_skip snap focus _ _ _ ?_]
  · unfold runStep
    rw [if_pos hen]
    unfold insertDS
    dsimp only
    rw [if_pos rfl]
  · intro e he
    simp only [List.mem_cons, List.not_mem_nil, or_false] at he
    rcases he with rfl | rfl | rfl <;> decide

/-- Claim C9 witness: a concrete enabled run stores the constant
cost-optimization DimensionScore. -/
theorem c9_witness :
    shouldAnalyze ["all"] (pyName "Cost Optimization") = true
    ∧ (runAnalyzers ⟨[]⟩ ["all"]).dimensionScores Dimension.cost_optimization
        = some (analyzeCost ⟨[]⟩).dimScore :=
  ⟨by decide, (c9_cost_analyzer_constant ⟨[]⟩ ["all"] (by decide)).2.2.2.2.1⟩

/- ---------------- claim C4 ---------------- -/

lemma mem_phase1 {findings : List Finding} {ph : RoadmapPhase}
    (h : ph ∈ phase1Of findings) :
    ph.phase = 1 ∧ ph.items = ((critSecOf findings).take 5).map (·.title) := by
  unfold phase1Of at h
  split_ifs at h
  · simp at h
  · simp only [List.mem_singleton] at h
    subst h
    exact ⟨rfl, rfl⟩

lemma mem_phase2 {findings : List Finding} {ph : RoadmapPhase}
    (h : ph ∈ phase2Of findings) :
    ph.phase = 2 ∧ ph.items = ((highPriorityOf findings).take 5).map (·.title) := by
  unfold phase2Of at h
  split_ifs at h
  · simp at h
  · simp only [List.mem_singleton] at h
    subst h
    exact ⟨rfl, rfl⟩

lemma mem_phase3 {findings : List Finding} {ph : RoadmapPhase}
    (h : ph ∈ phase3Of findings) :
    ph.phase = 3 ∧ ph.items = ((mediumPriorityOf findings).take 5).map (·.title) := by
  unfold phase3Of at h
  split_ifs at h
  · simp at h
  · simp only [List.mem_singleton] at h
    subst h
    exact ⟨rfl, rfl⟩

lemma exists_mem_of_not_isEmpty {α : Type} {l : List α} (h : ¬ l.isEmpty = true) :
    ∃ x, x ∈ l := by
  cases l with
  | nil => simp at h
  | cons a t => exact ⟨a, List.mem_cons_self _ _⟩

/-- Claim C4: roadmap composition: Phase 1 items come only from
CRITICAL∩SECURITY findings, Phase 2 only from HIGH, Phase 3 only from
MEDIUM (so LOW and INFO findings never appear); each phase holds at most 5
items; a phase is present exactly when its source severity set is
non-empty; phase numbers keep their fixed 1/2/3 values. -/
theorem c4_roadmap_composition (findings : List Finding) :
    (∀ ph ∈ generateRoadmap findings, ∀ it ∈ ph.items,
      ∃ g ∈ findings, g.title = it ∧
        ((ph.phase = 1 ∧ g.severity = Severity.critical ∧ g.dimension = Dimension.security)
          ∨ (ph.phase = 2 ∧ g.severity = Severity.high)
          ∨ (ph.phase = 3 ∧ g.severity = Severity.medium)))
    ∧ (∀ ph ∈ generateRoadmap findings, ph.items.length ≤ 5)
    ∧ ((∃ ph ∈ generateRoadmap findings, ph.phase = 1)
        ↔ ∃ g ∈ findings, g.severity = Severity.critical ∧ g.dimension = Dimension.security)
    ∧ ((∃ ph ∈ generateRoadmap findings, ph.phase = 2)
        ↔ ∃ g ∈ findings, g.severity = Severity.high)
    ∧ ((∃ ph ∈ generateRoadmap findings, ph.phase = 3)
        ↔ ∃ g ∈ findings, g.severity = Severity.medium)
    ∧ (∀ ph ∈ generateRoadmap findings, ph.phase = 1 ∨ ph.phase = 2 ∨ ph.phase = 3) := by
  have hsplit : ∀ ph, ph ∈ generateRoadmap findings ↔
      ph ∈ phase1Of findings ∨ ph ∈ phase2Of findings ∨ ph ∈ phase3Of findings := by
    intro ph
    unfold generateRoadmap
    simp [List.mem_append]
  refine ⟨?_, ?_, ?_, ?_, ?_, ?_⟩
  · intro ph hph it hit
    rcases (hsplit ph).mp hph with h | h | h
    · obtain ⟨h1, hitems⟩ := mem_phase1 h
      rw [hitems] at hit
      obtain ⟨g, hg, rfl⟩ := List.mem_map.mp hit
      have hg2 := List.mem_filter.mp (List.take_subset _ _ hg)
      have hprops := of_decide_eq_true hg2.2
      exact ⟨g, hg2.1, rfl, Or.inl ⟨h1, hprops.1, hprops.2⟩⟩
    · obtain ⟨h2, hitems⟩ := mem_phase2 h
      rw [hitems] at hit
      obtain ⟨g, hg, rfl⟩ := List.mem_map.mp hit
      have hg2 := List.mem_filter.mp (List.take_subset _ _ hg)
      exact ⟨g, hg2.1, rfl, Or.inr (Or.inl ⟨h2, of_decide_eq_true hg2.2⟩)⟩
    · obtain ⟨h3, hitems⟩ := mem_phase3 h
      rw [hitems] at hit
      obtain ⟨g, hg, rfl⟩ := List.mem_map.mp hit
      have hg2 := List.mem_filter.mp (List.take_subset _ _ hg)
      exact ⟨g, hg2.1, rfl, Or.inr (Or.inr ⟨h3, of_decide_eq_true hg2.2⟩)⟩
  · intro ph hph
    rcases (hsplit ph).mp hph with h | h | h
    · rw [(mem_phase1 h).2, List.length_map]
      exact List.length_take_le 5 _
    · rw [(mem_phase2 h).2, List.length_map]
      exact List.length_take_le 5 _
    · rw [(mem_phase3 h).2, List.length_map]
      exact List.length_take_le 5 _
  · constructor
    · rintro ⟨ph, hph, hph1⟩
      rcases (hsplit ph).mp hph with h | h | h
      · unfold phase1Of at h
        split_ifs at h with hcs
        · simp at h
        · obtain ⟨g, hg⟩ := exists_mem_of_not_isEmpty hcs
          have hg2 := List.mem_filter.mp hg
          have hprops := of_decide_eq_true hg2.2
          exact ⟨g, hg2.1, hprops.1, hprops.2⟩
      · rw [(mem_phase2 h).1] at hph1
        exact absurd hph1 (by norm_num)
      · rw [(mem_phase3 h).1] at hph1
        exact absurd hph1 (by norm_num)
    · rintro ⟨g, hg, hsev, hdim⟩
      have hgcs : g ∈ critSecOf findings :=
        List.mem_filter.mpr ⟨hg, decide_eq_true ⟨hsev, hdim⟩⟩
      have hne : ¬ (critSecOf findings).isEmpty = true := by
        cases hc : critSecOf findings with
        | nil => rw [hc] at hgcs; simp at hgcs
        | cons a t => simp [hc]
      refine ⟨⟨1, "Critical Security Remediation", "Week 1",
        ((critSecOf findings).take 5).map (·.title)⟩, ?_, rfl⟩
      apply (hsplit _).mpr
      left
      unfold phase1Of
      rw [if_neg hne]
      exact List.mem_singleton.mpr rfl
  · constructor
    · rintro ⟨ph, hph, hph2⟩
      rcases (hsplit ph).mp hph with h | h | h
      · rw [(mem_phase1 h).1] at hph2
        exact absurd hph2 (by norm_num)
      · unfold phase2Of at h
        split_ifs at h with hcs
        · simp at h
        · obtain ⟨g, hg⟩ := exists_mem_of_not_isEmpty hcs
          have hg2 := List.mem_filter.mp hg
          exact ⟨g, hg2.1, of_decide_eq_true hg2.2⟩
      · rw [(mem_phase3 h).1] at hph2
        exact absurd hph2 (by norm_num)
    · rintro ⟨g, hg, hsev⟩
      have hgcs : g ∈ highPriorityOf findings :=
        List.mem_filter.mpr ⟨hg, decide_eq_true hsev⟩
      have hne : ¬ (highPriorityOf findings).isEmpty = true := by
        cases hc : highPriorityOf findings with
        | nil => rw [hc] at hgcs; simp at hgcs
        | cons a t => simp [hc]
      refine ⟨⟨2, "High Priority Issues", "Weeks 2-3",
        ((highPriorityOf findings).take 5).map (·.title)⟩, ?_, rfl⟩
      apply (hsplit _).mpr
      right; left
      unfold phase2Of
      rw [if_neg hne]
      exact List.mem_singleton.mpr rfl
  · constructor
    · rintro ⟨ph, hph, hph3⟩
      rcases (hsplit ph).mp hph with h | h | h
      · rw [(mem_phase1 h).1] at hph3
        exact absurd hph3 (by norm_num)
      · rw [(mem_phase2 h).1] at hph3
        exact absurd hph3 (by norm_num)
      · unfold phase3Of at h
        split_ifs at h with hcs
        · simp at h
        · obtain ⟨g, hg⟩ := exists_mem_of_not_isEmpty hcs
          have hg2 := List.mem_filter.mp hg
          exact ⟨g, hg2.1, of_decide_eq_true hg2.2⟩
    · rintro ⟨g, hg, hsev⟩
      have hgcs : g ∈ mediumPriorityOf findings :=
        List.mem_filter.mpr ⟨hg, decide_eq_true hsev⟩
      have hne : ¬ (mediumPriorityOf findings).isEmpty = true := by
        cases hc : mediumPriorityOf findings with
        | nil => rw [hc] at hgcs; simp at hgcs
        | cons a t => simp [hc]
      refine ⟨⟨3, "Medium Priority Improvements", "Weeks 4-6",
        ((mediumPriorityOf findings).take 5).map (·.title)⟩, ?_, rfl⟩
      apply (hsplit _).mpr
      right; right
      unfold phase3Of
      rw [if_neg hne]
      exact List.mem_singleton.mpr rfl
  · intro ph hph
    rcases (hsplit ph).mp hph with h | h | h
    · exact Or.inl (mem_phase1 h).1
    · exact Or.inr (Or.inl (mem_phase2 h).1)
    · exact Or.inr (Or.inr (mem_phase3 h).1)

/-- Claim C4 witness: a single critical security finding populates
Phase 1. -/
theorem c4_witness :
    (∃ g ∈ [witnessCritFinding],
      g.severity = Severity.critical ∧ g.dimension = Dimension.security)
    ∧ (∃ ph ∈ generateRoadmap [witnessCritFinding], ph.phase = 1) :=
  ⟨⟨witnessCritFinding, List.Mem.head _, rfl, rfl⟩,
    (c4_roadmap_composition [witnessCritFinding]).2.2.1.mpr
      ⟨witnessCritFinding, List.Mem.head _, rfl, rfl⟩⟩

/- ---------------- claim C5 ---------------- -/

lemma insertDS_ds_ne_none (st : AssessState) (d0 : Dimension) (out : AnalyzerOut)
    (d : Dimension) :
    ((insertDS st d0 out).dimensionScores d ≠ none)
      ↔ (d = d0 ∨ st.dimensionScores d ≠ none) := by
  unfold insertDS
  dsimp only
  by_cases hd : d = d0
  · simp [hd]
  · simp [hd]

lemma foldl_ds_isSome (snap : Snapshot) (focus : List String) :
    ∀ (table : List (String × Dimension × (Snapshot → AnalyzerOut)))
      (st0 : AssessState) (d : Dimension),
      ((table.foldl (runStep snap focus) st0).dimensionScores d ≠ none)
        ↔ ((∃ e ∈ table, e.2.1 = d ∧ shouldAnalyze focus (pyName e.1) = true)
            ∨ st0.dimensionScores d ≠ none) := by
  intro table
  induction table with
  | nil =>
    intro st0 d
    simp
  | cons e t ih =>
    intro st0 d
    rw [List.foldl_cons, ih]
    unfold runStep
    by_cases hg : shouldAnalyze focus (pyName e.1) = true
    · rw [if_pos hg, insertDS_ds_ne_none]
      simp only [List.mem_cons]
      constructor
      · rintro (⟨e', he', h1, h2⟩ | hd | hst)
        · exact Or.inl ⟨e', Or.inr he', h1, h2⟩
        · exact Or.inl ⟨e, Or.inl rfl, hd.symm, hg⟩
        · exact Or.inr hst
      · rintro (⟨e', he', h1, h2⟩ | hst)
        · rcases he' with rfl | he'
          · exact Or.inr (Or.inl h1.symm)
          · exact Or.inl ⟨e', he', h1, h2⟩
        · exact Or.inr (Or.inr hst)
    · rw [if_neg hg]
      simp only [List.mem_cons]
      constructor
      · rintro (⟨e', he', h1, h2⟩ | hst)
        · exact Or.inl ⟨e', Or.inr he', h1, h2⟩
        · exact Or.inr hst
      · rintro (⟨e', he', h1, h2⟩ | hst)
        · rcases he' with rfl | he'
          · exact absurd h2 hg
          · exact Or.inl ⟨e', he', h1, h2⟩
        · exact Or.inr hst

lemma table_pyName (e : String × Dimension × (Snapshot → AnalyzerOut))
    (he : e ∈ analyzerTable) : pyName e.1 = dimValue e.2.1 := by
  simp only [analyzerTable, List.mem_cons, List.not_mem_nil, or_false] at he
  rcases he with rfl|rfl|rfl|rfl|rfl|rfl|rfl|rfl|rfl|rfl|rfl|rfl|rfl|rfl|rfl <;> decide

lemma tableEntry (d : Dimension) :
    ∃ e ∈ analyzerTable, e.2.1 = d ∧ pyName e.1 = dimValue d := by
  cases d with
  | security =>
    exact ⟨("Security", Dimension.security, analyzeSecurity),
      by simp [analyzerTable], rfl, by decide⟩
  | architecture =>
    exact ⟨("Architecture", Dimension.architecture, analyzeArchitecture),
      by simp [analyzerTable], rfl, by decide⟩
  | reliability =>
    exact ⟨("Reliability", Dimension.reliability, analyzeReliability),
      by simp [analyzerTable], rfl, by decide⟩
  | performance =>
    exact ⟨("Performance", Dimension.performance, analyzePerformance),
      by simp [analyzerTable], rfl, by decide⟩
  | observability =>
    exact ⟨("Observability", Dimension.observability, analyzeObservability),
      by simp [analyzerTable], rfl, by decide⟩
  | testing =>
    exact ⟨("Testing", Dimension.testing, analyzeTesting),
      by simp [analyzerTable], rfl, by decide⟩
  | devops =>
    exact ⟨("DevOps", Dimension.devops, analyzeDevops),
      by simp [analyzerTable], rfl, by decide⟩
  | data_management =>
    exact ⟨("Data Management", Dimension.data_management, analyzeData),
      by simp [analyzerTable], rfl, by decide⟩
  | api_contracts =>
    exact ⟨("API Contracts", Dimension.api_contracts, analyzeApi),
      by simp [analyzerTable], rfl, by decide⟩
  | documentation =>
    exact ⟨("Documentation", Dimension.documentation, analyzeDocumentation),
      by simp [analyzerTable], rfl, by decide⟩
  | compliance =>
    exact ⟨("Compliance", Dimension.compliance, analyzeCompliance),
      by simp [analyzerTable], rfl, by decide⟩
  | cost_optimization =>
    exact ⟨("Cost Optimization", Dimension.cost_optimization, analyzeCost),
      by simp [analyzerTable], rfl, by decide⟩
  | dependencies =>
    exact ⟨("Dependencies", Dimension.dependencies, analyzeDependencies),
      by simp [analyzerTable], rfl, by decide⟩
  | configuration =>
    exact ⟨("Configuration", Dimension.configuration, analyzeConfiguration),
      by simp [analyzerTable], rfl, by decide⟩
  | team_readiness =>
    exact ⟨("Team Readiness", Dimension.team_readiness, analyzeTeamReadiness),
      by simp [analyzerTable], rfl, by decide⟩

/-- A dimension is present in the run map exactly when its identifier is
enabled by _should_analyze. -/
lemma ds_ne_none_iff (snap : Snapshot) (focus : List String) (d : Dimension) :
    ((runAnalyzers snap focus).dimensionScores d ≠ none)
      ↔ shouldAnalyze focus (dimValue d) = true := by
  unfold runAnalyzers
  rw [foldl_ds_isSome]
  constructor
  · rintro (⟨e, he, h1, h2⟩ | hst)
    · rw [← h1, ← table_pyName e he]
      exact h2
    · exact absurd (rfl : (none : Option DimensionScore) = none) hst
  · intro hg
    obtain ⟨e, he, h1, h2⟩ := tableEntry d
    exact Or.inl ⟨e, he, h1, by rw [h2]; exact hg⟩

lemma shouldAnalyze_iff (focus : List String) (v : String) :
    shouldAnalyze focus v = true ↔ (v ∈ focus ∨ "all" ∈ focus) := by
  simp [shouldAnalyze]

lemma shouldAnalyze_cons (u v : String) (focus : List String)
    (hv : v ≠ u) (hall : u ≠ "all") :
    shouldAnalyze (u :: focus) v = shouldAnalyze focus v := by
  unfold shouldAnalyze
  rw [List.contains_cons, List.contains_cons]
  rw [beq_eq_false_iff_ne.mpr hv, beq_eq_false_iff_ne.mpr (Ne.symm hall)]
  simp

lemma foldl_gate_congr (snap : Snapshot) (f1 f2 : List String) :
    ∀ (table : List (String × Dimension × (Snapshot → AnalyzerOut)))
      (st0 : AssessState),
      (∀ e ∈ table, shouldAnalyze f1 (pyName e.1) = shouldAnalyze f2 (pyName e.1)) →
      table.foldl (runStep snap f1) st0 = table.foldl (runStep snap f2) st0 := by
  intro table
  induction table with
  | nil => intro st0 _; rfl
  | cons e t ih =>
    intro st0 hg
    rw [List.foldl_cons, List.foldl_cons,
      show runStep snap f1 st0 e = runStep snap f2 st0 e from by
        unfold runStep
        rw [hg e (List.mem_cons_self _ _)]]
    exact ih _ (fun e' he' => hg e' (List.mem_cons_of_mem _ he'))

lemma allDim_mem (d : Dimension) : d ∈ allDimensions := by
  cases d <;> simp [allDimensions]

/-- Claim C5: a dimension analyzer runs iff its identifier (or the sentinel
"all") is in the focus list; an omitted or empty focus runs every
dimension; unknown focus identifiers are ignored without error; with focus
exactly ["security"] the dimension_scores map has exactly the security
entry. -/
theorem c5_focus_filtering (snap : Snapshot) (focus : List String) :
    (∀ d : Dimension,
      ((runAnalyzers snap focus).dimensionScores d ≠ none
        ↔ (dimValue d ∈ focus ∨ "all" ∈ focus)))
    ∧ (∀ d : Dimension,
        (runAnalyzers snap (effectiveFocus [])).dimensionScores d ≠ none)
    ∧ (∀ u : String, u ∉ allDimensions.map dimValue → u ≠ "all" →
        runAnalyzers snap (u :: focus) = runAnalyzers snap focus)
    ∧ ((runAnalyzers snap ["security"]).dimensionScores Dimension.security ≠ none)
    ∧ (∀ d : Dimension, d ≠ Dimension.security →
        (runAnalyzers snap ["security"]).dimensionScores d = none) := by
  refine ⟨?_, ?_, ?_, ?_, ?_⟩
  · intro d
    rw [ds_ne_none_iff, shouldAnalyze_iff]
  · intro d
    rw [ds_ne_none_iff]
    cases d <;> decide
  · intro u hu hall
    unfold runAnalyzers
    apply foldl_gate_congr
    intro e he
    apply shouldAnalyze_cons
    · rw [table_pyName e he]
      exact fun hEq => hu (hEq ▸ List.mem_map_of_mem dimValue (allDim_mem e.2.1))
    · exact hall
  · rw [ds_ne_none_iff]
    decide
  · intro d hd
    apply not_ne_iff.mp
    intro hne
    have hg := (ds_ne_none_iff snap ["security"] d).mp hne
    cases d with
    | security => exact hd rfl
    | architecture => exact absurd hg (by decide)
    | reliability => exact absurd hg (by decide)
    | performance => exact absurd hg (by decide)
    | observability => exact absurd hg (by decide)
    | testing => exact absurd hg (by decide)
    | devops => exact absurd hg (by decide)
    | data_management => exact absurd hg (by decide)
    | api_contracts => exact absurd hg (by decide)
    | documentation => exact absurd hg (by decide)
    | compliance => exact absurd hg (by decide)
    | cost_optimization => exact absurd hg (by decide)
    | dependencies => exact absurd hg (by decide)
    | configuration => exact absurd hg (by decide)
    | team_readiness => exact absurd hg (by decide)

/-- Claim C5 witness: with focus ["security"], a non-security dimension has
no entry. -/
theorem c5_witness :
    Dimension.architecture ≠ Dimension.security
    ∧ (runAnalyzers ⟨[]⟩ ["security"]).dimensionScores Dimension.architecture = none :=
  ⟨by decide,
    (c5_focus_filtering ⟨[]⟩ []).2.2.2.2 Dimension.architecture (by decide)⟩

/- ---------------- claim C8 ---------------- -/

/-- Claim C8: (1) the secret scan never reports a finding at a path that
case-insensitively contains "test" or "example"; (2) a snapshot whose one
file matches exactly the hardcoded-API-key pattern outside any excluded
path yields exactly one CRITICAL SECURITY finding and a security score
reduced by exactly that check penalty of 15. -/
theorem c8_secret_scan :
    (∀ (snap : Snapshot) (p : String), pathExcluded p = true →
      ∀ s ∈ scanForSecrets snap, s.loc ≠ p)
    ∧ (∀ f : SFile,
        f.readable = true →
        walkOkSecrets f.path = true →
        hasExt (baseName f.path) secretFileExts = true →
        pathExcluded f.path = false →
        f.secretHits = [0] →
        f.vulnHits = [] →
        f.cryptoHits = [] →
        strContains (lowerStr f.content) "jwt" = false →
        f.path ≠ "package-lock.json" →
        scanForSecrets ⟨[f]⟩ = [⟨"API Key", f.path⟩]
        ∧ (analyzeSecurity ⟨[f]⟩).newFindings = [apiKeyFindingAt f.path]
        ∧ (analyzeSecurity ⟨[f]⟩).dimScore.score = 100 - 15) := by
  constructor
  · intro snap p hexcl s hs
    unfold scanForSecrets at hs
    obtain ⟨fl, -, hm⟩ := List.mem_flatMap.mp hs
    split_ifs at hm
    case neg => simp at hm
    obtain ⟨pr, -, hg⟩ := List.mem_filterMap.mp hm
    split_ifs at hg with hc
    injection hg with h2
    subst h2
    intro hp
    replace hp : fl.path = p := hp
    simp only [Bool.and_eq_true] at hc
    have h3 := hc.2
    simp only [Bool.not_eq_true'] at h3
    rw [hp, hexcl] at h3
    simp at h3
  · intro f hro hdirs hext hnotex hhits hvuln hcrypto hnojwt hnotlock
    have hsecrets : scanForSecrets ⟨[f]⟩ = [⟨"API Key", f.path⟩] := by
      unfold scanForSecrets
      simp [hdirs, hext, hro, hhits, hnotex, secretTypesIdx]
    have hvulns : scanVulnerablePatterns ⟨[f]⟩ = [] := by
      unfold scanVulnerablePatterns
      simp [hvuln, vulnPatternsIdx]
    have hdeps : scanDependencyVulnerabilities ⟨[f]⟩ = [] := by
      unfold scanDependencyVulnerabilities
      simp [List.find?, hnotlock]
    have hauth : analyzeAuthentication ⟨[f]⟩ = [] := by
      unfold analyzeAuthentication
      simp [hnojwt]
    have hcrypto2 : analyzeCryptography ⟨[f]⟩ = [] := by
      unfold analyzeCryptography
      simp [hcrypto, weakCryptoIdx]
    refine ⟨hsecrets, ?_, ?_⟩
    · unfold analyzeSecurity
      dsimp only [mkOut]
      rw [hsecrets, hvulns, hdeps, hauth, hcrypto2]
      rfl
    · unfold analyzeSecurity
      dsimp only [mkOut]
      rw [hsecrets, hvulns, hdeps, hauth, hcrypto2]
      norm_num [clamp0]

/-- Claim C8 witness: a one-file snapshot with an API-key hit outside any
test/example path scores 85 = 100 - 15. -/
theorem c8_witness :
    pathExcluded "src/app.py" = false
    ∧ (analyzeSecurity ⟨[⟨"src/app.py", "x", true, [0], [], [], []⟩]⟩).dimScore.score
        = 100 - 15 :=
  ⟨by decide,
    (c8_secret_scan.2 ⟨"src/app.py", "x", true, [0], [], [], []⟩ rfl (by decide)
      (by decide) (by decide) rfl rfl rfl (by decide) (by decide)).2.2⟩

end PRA
